import Mathlib

/-!
# Yoda request handler (`yoda/handler.go`)

A shallow embedding of the oracle reporter's request handler and the
properties of its fan-out/fan-in execution engine and of its dispatcher.

Conventions of the embedding:

* a Go `error` is the text of `err.Error()`; `nil` is `none`;
* a Go `[]byte` (and a Go `string` that carries raw bytes) is a list of
  byte values, `nil` being the empty list;
* every call on an external collaborator, every log line and every channel
  send is recorded, in program order, in the trace the function returns;
* a function that may panic or block for ever returns an explicit outcome.
-/

namespace Yoda

/-! ## Go values -/

/-- Byte strings: each element is one byte value. -/
abbrev Bytes := List Nat

/-- The text carried by a Go error value. -/
abbrev GoError := String

deriving instance DecidableEq for Except

/-- UTF-8 encoding of one code point, as Go stores string literals. -/
def utf8Encode (c : Nat) : Bytes :=
  if c < 0x80 then [c]
  else if c < 0x800 then [0xC0 + c / 64, 0x80 + c % 64]
  else if c < 0x10000 then [0xE0 + c / 4096, 0x80 + c / 64 % 64, 0x80 + c % 64]
  else [0xF0 + c / 262144, 0x80 + c / 4096 % 64, 0x80 + c / 64 % 64, 0x80 + c % 64]

/-- The Go conversion `[]byte(s)` of a string literal. -/
def bytesOfString (s : String) : Bytes :=
  (s.toList.map (fun ch => utf8Encode ch.toNat)).flatten

/-- The Go conversion `int(x)` of an unsigned 64-bit value: two's complement wrap. -/
def toInt64 (n : Nat) : Int :=
  if n % 2 ^ 64 < 2 ^ 63 then ((n % 2 ^ 64 : Nat) : Int) else ((n % 2 ^ 64 : Nat) : Int) - 2 ^ 64

/-- The Go conversion `uint64(i)` of a signed value: two's complement wrap. -/
def toUint64 (i : Int) : Nat := (i % 2 ^ 64).toNat

/-- Model of `strconv.Itoa`. -/
def strconvItoa (i : Int) : String := toString i

/-- One lower-case hexadecimal digit. -/
def hexDigit (n : Nat) : Char := "0123456789abcdef".toList.getD n '0'

/-- Model of `hex.EncodeToString`. -/
def hexEncodeToString (b : Bytes) : String :=
  String.mk ((b.map (fun x => [hexDigit (x / 16 % 16), hexDigit (x % 16)])).flatten)

/-! ## Data model -/

abbrev RequestID := Nat
abbrev ExternalID := Nat
abbrev DataSourceID := Nat

/-- The per-task outcome `types.RawReport`, as built by `types.NewRawReport`. -/
structure RawReport where
  ExternalID : ExternalID
  ExitCode : Nat
  Output : Bytes
deriving DecidableEq, Repr

/-- Constructor `types.NewRawReport(externalID, exitCode, data)`. -/
def NewRawReport (eid : ExternalID) (exitCode : Nat) (data : Bytes) : RawReport :=
  { ExternalID := eid, ExitCode := exitCode, Output := data }

/-- One fetch task of a request (`rawRequest`). -/
structure rawRequest where
  dataSourceID : DataSourceID
  dataSourceHash : String
  externalID : ExternalID
  calldata : Bytes
deriving DecidableEq, Repr

/-- What one task goroutine puts on the result channel. -/
structure processingResult where
  rawReport : RawReport
  version : String := ""
  err : Option GoError := none
deriving DecidableEq, Repr

/-- The signing key handle (`keyring.Info`); only its name is used. -/
structure KeyInfo where
  name : String
deriving DecidableEq, Repr

/-- The message `types.RequestVerification` built by `types.NewRequestVerification`. -/
structure RequestVerification where
  ChainID : String
  Validator : String
  RequestID : RequestID
  ExternalID : ExternalID
  DataSourceID : DataSourceID
deriving DecidableEq, Repr

/-- Constructor `types.NewRequestVerification`. -/
def NewRequestVerification (chainID validator : String) (id : RequestID) (eid : ExternalID)
    (did : DataSourceID) : RequestVerification :=
  { ChainID := chainID, Validator := validator, RequestID := id, ExternalID := eid,
    DataSourceID := did }

/-- The executor's answer (`ExecResult`). -/
structure ExecResult where
  Output : Bytes
  Code : Nat
  Version : String
deriving DecidableEq, Repr

/-- A value of the executor environment `map[string]interface{}`. -/
inductive EnvValue where
  | str (s : String)
  | bytes (b : Bytes)
deriving DecidableEq, Repr

/-- The external collaborators a task goroutine calls. -/
structure Gateways where
  /-- Function `GetExecutable(c, l, hash)`. -/
  GetExecutable : String → Except GoError Bytes
  /-- Method `vmsg.GetSignBytes()`. -/
  GetSignBytes : RequestVerification → Bytes
  /-- Function `kb.Sign(name, msg)`: signature and public-key bytes. -/
  Sign : String → Bytes → Except GoError (Bytes × Bytes)
  /-- Method `c.executor.Exec(exec, calldata, env)`. -/
  Exec : Bytes → Bytes → List (String × EnvValue) → Except GoError ExecResult

/-- The part of `Context` (and of the package configuration) the handler reads and writes. -/
structure Context where
  /-- The text `c.validator.String()`. -/
  validator : String
  /-- The configured `cfg.ChainID`. -/
  chainID : String
  keys : List KeyInfo
  /-- The in-flight set `c.pendingRequests` (a `map[RequestID]bool`; absent keys read `false`). -/
  pendingRequests : RequestID → Bool
  keyRoundRobinIndex : Nat

/-! ## One task: `handleRawRequest` -/

/-- What a task goroutine does, in program order. -/
inductive TaskEffect where
  | gauge (delta : Int)
  | getExecutable (hash : String)
  | sign (keyName : String) (msg : Bytes)
  | exec (executable : Bytes) (calldata : Bytes) (env : List (String × EnvValue))
  | logError (template : String) (err : GoError)
  | logDebug (template : String)
  | send (r : processingResult)
deriving DecidableEq, Repr

/-- The environment handed to the executor. -/
def execEnv (vmsg : RequestVerification) (sig pubkey : Bytes) : List (String × EnvValue) :=
  [ ("BAND_CHAIN_ID", EnvValue.str vmsg.ChainID),
    ("BAND_DATA_SOURCE_ID", EnvValue.str (strconvItoa (toInt64 vmsg.DataSourceID))),
    ("BAND_VALIDATOR", EnvValue.str vmsg.Validator),
    ("BAND_REQUEST_ID", EnvValue.str (strconvItoa (toInt64 vmsg.RequestID))),
    ("BAND_EXTERNAL_ID", EnvValue.str (strconvItoa (toInt64 vmsg.ExternalID))),
    ("BAND_REPORTER", EnvValue.str (hexEncodeToString pubkey)),
    ("BAND_SIGNATURE", EnvValue.bytes sig) ]

/-- The local `vmsg` of `handleRawRequest`: the verification message of a task. -/
def vmsg (c : Context) (req : rawRequest) (id : RequestID) : RequestVerification :=
  NewRequestVerification c.chainID c.validator id req.externalID req.dataSourceID

/-- The body of `handleRawRequest`: the trace of one task goroutine. The deferred
gauge decrement closes the trace on every path. -/
def handleRawRequest (g : Gateways) (c : Context) (req : rawRequest) (key : KeyInfo)
    (id : RequestID) : List TaskEffect :=
  [TaskEffect.gauge 1, TaskEffect.getExecutable req.dataSourceHash] ++
  (match g.GetExecutable req.dataSourceHash with
   | Except.error err =>
     [ TaskEffect.logError ":skull: Failed to load data source with error: %s" err,
       TaskEffect.send
         { rawReport := NewRawReport req.externalID 255 (bytesOfString "FAIL_TO_LOAD_DATA_SOURCE"),
           err := some err } ]
   | Except.ok exec =>
     TaskEffect.sign key.name (g.GetSignBytes (vmsg c req id)) ::
     (match g.Sign key.name (g.GetSignBytes (vmsg c req id)) with
      | Except.error err =>
        [ TaskEffect.logError ":skull: Failed to sign verify message: %s" err,
          TaskEffect.send { rawReport := NewRawReport req.externalID 255 [], err := some err } ]
      | Except.ok (sig, pubkey) =>
        TaskEffect.exec exec req.calldata (execEnv (vmsg c req id) sig pubkey) ::
        (match g.Exec exec req.calldata (execEnv (vmsg c req id) sig pubkey) with
         | Except.error err =>
           [ TaskEffect.logError ":skull: Failed to execute data source script: %s" err,
             TaskEffect.send { rawReport := NewRawReport req.externalID 255 [], err := some err } ]
         | Except.ok result =>
           [ TaskEffect.logDebug
               ":sparkles: Query data done with calldata: %q, result: %q, exitCode: %d",
             TaskEffect.send
               { rawReport := NewRawReport req.externalID result.Code result.Output,
                 version := result.Version } ]))) ++
  [TaskEffect.gauge (-1)]

/-- The results a trace puts on the result channel, in order. -/
def sent (t : List TaskEffect) : List processingResult :=
  t.filterMap (fun e => match e with
    | TaskEffect.send r => some r
    | _ => none)

/-- Whether an effect is a call on the signer. -/
def TaskEffect.isSign : TaskEffect → Bool
  | TaskEffect.sign _ _ => true
  | _ => false

/-- Whether an effect is a call on the executor. -/
def TaskEffect.isExec : TaskEffect → Bool
  | TaskEffect.exec _ _ _ => true
  | _ => false

/-! ## Fan-out / fan-in: `handleRawRequests` -/

/-- The choices the Go runtime makes and the program does not fix. -/
structure Sched where
  /-- Arrival order on the result channel: entry `k` is the position, among all results
  sent (goroutines taken in spawn order), of the `k`-th result received. -/
  deliver : List Nat
  /-- Order in which `range` walks the keys of the version map. -/
  rangeOrder : List String → List String

/-- The fan-out loop `for _, req := range reqs { go handleRawRequest(...) }`: the trace of
each goroutine, in spawn order. Goroutine `i` sees the collaborators as `g i`. -/
def spawnAll (g : Nat → Gateways) (c : Context) (key : KeyInfo) (id : RequestID) :
    Nat → List rawRequest → List (List TaskEffect)
  | _, [] => []
  | i, req :: rest => handleRawRequest (g i) c req key id :: spawnAll g c key id (i + 1) rest

/-- The assignment `versions[k] = true` on the key set of a `map[string]bool`. -/
def mapSet (keys : List String) (k : String) : List String :=
  if k ∈ keys then keys else keys ++ [k]

/-- The statement `if result.err == nil { versions[result.version] = true }`. -/
def recordVersion (versions : List String) (result : processingResult) : List String :=
  if result.err = none then mapSet versions result.version else versions

/-- The fan-in loop `for range reqs { result := <-resultsChan ... }`, run on the sequence
of results that reach the channel. `none`: the receive blocks for ever. -/
def fanIn : List rawRequest → List processingResult → List RawReport → List String →
    Option (List RawReport × List String)
  | [], _, reports, versions => some (reports, versions)
  | _ :: _, [], _, _ => none
  | _ :: rest, result :: ch, reports, versions =>
    fanIn rest ch (reports ++ [result.rawReport]) (recordVersion versions result)

/-- What `handleRawRequests` does: the goroutines it starts and what it returns. -/
structure Execution where
  tasks : List (List TaskEffect)
  /-- The pair `(reports, execVersions)`; `none` when the function never returns. -/
  result : Option (List RawReport × List String)

/-- The results that reach the channel, in arrival order. -/
def delivered (s : Sched) (tasks : List (List TaskEffect)) : List processingResult :=
  s.deliver.filterMap (fun i => ((tasks.map sent).flatten)[i]?)

/-- The body of `handleRawRequests`. -/
def handleRawRequests (g : Nat → Gateways) (s : Sched) (c : Context) (id : RequestID)
    (reqs : List rawRequest) (key : KeyInfo) : Execution :=
  { tasks := spawnAll g c key id 0 reqs,
    result :=
      (fanIn reqs (delivered s (spawnAll g c key id 0 reqs)) [] []).map
        (fun rv => (rv.1, s.rangeOrder rv.2)) }

/-- What task `i` reports: the result its goroutine sends. -/
def taskResults (g : Nat → Gateways) (c : Context) (key : KeyInfo) (id : RequestID)
    (reqs : List rawRequest) : List processingResult :=
  ((spawnAll g c key id 0 reqs).map sent).flatten

/-- Insertion into a list of reports ordered by ascending ExternalID. -/
def insertByExternalID (r : RawReport) : List RawReport → List RawReport
  | [] => [r]
  | x :: xs => if r.ExternalID ≤ x.ExternalID then r :: x :: xs else x :: insertByExternalID r xs

/-- Reports listed in ascending ExternalID order. -/
def sortByExternalID : List RawReport → List RawReport
  | [] => []
  | x :: xs => insertByExternalID x (sortByExternalID xs)

/-! ## Go library functions used by the dispatcher -/

/-- Decimal value of a non-empty string of ASCII digits. -/
def parseDigits : List Char → Option Nat
  | [] => none
  | cs => if cs.all Char.isDigit then some (cs.foldl (fun n ch => 10 * n + (ch.toNat - 48)) 0)
          else none

/-- Model of `strconv.ParseInt(s, 10, 64)`, which `strconv.Atoi` agrees with on a 64-bit
platform. The error is the `Err` field of the `NumError`. -/
def strconvParseInt (s : String) : Except GoError Int :=
  let cs := s.toList
  let body := if cs.head? = some '-' ∨ cs.head? = some '+' then cs.tail else cs
  match parseDigits body with
  | none => Except.error "invalid syntax"
  | some n =>
    if cs.head? = some '-' then
      (if n > 2 ^ 63 then Except.error "value out of range" else Except.ok (-(n : Int)))
    else
      (if n ≥ 2 ^ 63 then Except.error "value out of range" else Except.ok (n : Int))

/-- Model of `strconv.Atoi`. -/
def strconvAtoi (s : String) : Except GoError Int := strconvParseInt s

/-- The function `MustAtoi`: `Except.error` stands for `panic(err)`. -/
def MustAtoi (num : String) : Except GoError Int :=
  match strconvParseInt num with
  | Except.error err => Except.error err
  | Except.ok result => Except.ok result

/-- Value of one hexadecimal digit. -/
def fromHexChar (ch : Char) : Option Nat :=
  if ch.isDigit then some (ch.toNat - 48)
  else if 97 ≤ ch.toNat ∧ ch.toNat ≤ 102 then some (ch.toNat - 87)
  else if 65 ≤ ch.toNat ∧ ch.toNat ≤ 70 then some (ch.toNat - 55)
  else none

/-- Model of `hex.DecodeString`: the bytes decoded before the error, and the error. -/
def hexDecode : List Char → Bytes → Bytes × Option GoError
  | [], acc => (acc, none)
  | [a], acc =>
    if fromHexChar a = none then (acc, some "encoding/hex: invalid byte")
    else (acc, some "encoding/hex: odd length hex string")
  | a :: b :: rest, acc =>
    match fromHexChar a, fromHexChar b with
    | some x, some y => hexDecode rest (acc ++ [16 * x + y])
    | _, _ => (acc, some "encoding/hex: invalid byte")

/-- Model of `hex.DecodeString`. -/
def hexDecodeString (s : String) : Bytes × Option GoError := hexDecode s.toList []

/-! ## The dispatcher: `handleRequestLog` and `handlePendingRequest` -/

/-- One key/value attribute of an event. -/
structure Attribute where
  key : String
  value : String
deriving DecidableEq, Repr

/-- One typed event of a message log. -/
structure Event where
  type : String
  attributes : List Attribute
deriving DecidableEq, Repr

/-- The log of one message (`sdk.ABCIMessageLog`). -/
structure ABCIMessageLog where
  events : List Event
deriving DecidableEq, Repr

/-- One assigned task in the persisted request record. -/
structure RawRequestRecord where
  DataSourceID : DataSourceID
  ExternalID : ExternalID
  Calldata : Bytes
deriving DecidableEq, Repr

/-- The persisted request record returned by `GetRequest`. -/
structure Request where
  RawRequests : List RawRequestRecord
  RequestedValidators : List String
  MinCount : Nat
  Calldata : Bytes
  ClientID : String
deriving DecidableEq, Repr

/-- The functions and constants of the package that the dispatcher uses and that are
defined outside `handler.go`. -/
structure Helpers where
  EventTypeRequest : String
  AttributeKeyID : String
  AttributeKeyValidator : String
  AttributeKeyAskCount : String
  AttributeKeyMinCount : String
  AttributeKeyCalldata : String
  AttributeKeyClientID : String
  /-- Function `GetEventValue(log, evType, evKey)`. -/
  GetEventValue : ABCIMessageLog → String → String → Except GoError String
  /-- Function `GetEventValues(log, evType, evKey)`. -/
  GetEventValues : ABCIMessageLog → String → String → List String
  /-- Function `GetRawRequests(log)`: both returned values. -/
  GetRawRequests : ABCIMessageLog → List rawRequest × Option GoError
  /-- Function `GetRequest(c, l, id)`. -/
  GetRequest : RequestID → Except GoError Request
  /-- Function `GetDataSourceHash(c, l, id)`. -/
  GetDataSourceHash : DataSourceID → Except GoError String

/-- The inputs of the downstream fee computation. -/
structure FeeEstimationData where
  askCount : Int
  minCount : Int
  callData : Bytes
  rawRequests : List rawRequest
  clientID : String
deriving DecidableEq, Repr

/-- The message `types.MsgReportData` built by `types.NewMsgReportData`. -/
structure MsgReportData where
  RequestID : RequestID
  RawReports : List RawReport
  Validator : String
deriving DecidableEq, Repr

/-- Constructor `types.NewMsgReportData`. -/
def NewMsgReportData (id : RequestID) (reports : List RawReport) (validator : String) :
    MsgReportData :=
  { RequestID := id, RawReports := reports, Validator := validator }

/-- The envelope put on `c.pendingMsgs`. -/
structure ReportMsgWithKey where
  msg : MsgReportData
  execVersion : List String
  keyIndex : Nat
  feeEstimationData : FeeEstimationData
deriving DecidableEq, Repr

/-- Modelled from the spec: the method `Context.nextKeyIndex` is defined outside
`handler.go`; section 4.4 describes it as a round-robin cursor over the fixed key set,
advanced once per request dispatch. Returns the index and the advanced context. -/
def nextKeyIndex (c : Context) : Nat × Context :=
  ((c.keyRoundRobinIndex + 1) % c.keys.length,
   { c with keyRoundRobinIndex := (c.keyRoundRobinIndex + 1) % c.keys.length })

/-- What a dispatcher run does, in program order. -/
inductive Effect where
  | logDebug (template : String) (args : List String)
  | logInfo (template : String)
  | logError (template : String) (args : List String)
  /-- The call `handleRawRequests(c, l, id, reqs, key)`: the context as it is at the call,
  the other arguments, and the task goroutines the call starts. -/
  | execute (c : Context) (id : RequestID) (reqs : List rawRequest) (key : KeyInfo)
      (tasks : List (List TaskEffect))
  /-- The send `c.pendingMsgs <- m`. -/
  | enqueue (m : ReportMsgWithKey)

/-- How a dispatcher run ends. -/
inductive Outcome where
  | returned
  | panicked (msg : String)
  | blocked
deriving DecidableEq, Repr

/-- A dispatcher run: how it ends, the context it leaves, and its trace. -/
structure Run where
  outcome : Outcome
  ctx : Context
  effects : List Effect

/-- The statement `if err != nil { l.Error(template, c, err.Error()) }` with no `return`:
the error is logged and the function goes on. -/
def logIfError (template : String) (err : Option GoError) : List Effect :=
  match err with
  | some e => [Effect.logError template [e]]
  | none => []

/-- The loop that looks for this validator among the requested ones. -/
def hasMe (me : String) : List String → Bool
  | [] => false
  | validator :: rest => if validator = me then true else hasMe me rest

/-- The body of `handleRequestLog`. -/
def handleRequestLog (h : Helpers) (g : Nat → Gateways) (s : Sched) (c : Context)
    (log : ABCIMessageLog) : Run :=
  match h.GetEventValue log h.EventTypeRequest h.AttributeKeyID with
  | Except.error err =>
    ⟨Outcome.returned, c,
      [Effect.logDebug ":cold_sweat: Failed to parse request id with error: %s" [err]]⟩
  | Except.ok idStr =>
  match strconvAtoi idStr with
  | Except.error err =>
    ⟨Outcome.returned, c,
      [Effect.logError ":cold_sweat: Failed to convert %s to integer with error: %s"
        [idStr, err]]⟩
  | Except.ok id =>
  if c.pendingRequests (toUint64 id) = true then
    ⟨Outcome.returned, c, [Effect.logDebug ":eyes: Request is in pending list, then skip" []]⟩
  else if hasMe c.validator (h.GetEventValues log h.EventTypeRequest h.AttributeKeyValidator)
      = false then
    ⟨Outcome.returned, c,
      [Effect.logDebug ":next_track_button: Skip request not related to this validator" []]⟩
  else
  let t1 : List Effect :=
    Effect.logInfo ":delivery_truck: Processing incoming request event" ::
    logIfError ":skull: Failed to parse raw requests with error: %s" (h.GetRawRequests log).2
  let reqs := (h.GetRawRequests log).1
  let keyIndex := (nextKeyIndex c).1
  let c1 := (nextKeyIndex c).2
  match c1.keys[keyIndex]? with
  | none => ⟨Outcome.panicked "index out of range", c1, t1⟩
  | some key =>
  let ex := handleRawRequests g s c1 (toUint64 id) reqs key
  let t2 := t1 ++ [Effect.execute c1 (toUint64 id) reqs key ex.tasks]
  match ex.result with
  | none => ⟨Outcome.blocked, c1, t2⟩
  | some (reports, execVersions) =>
  match h.GetEventValues log h.EventTypeRequest h.AttributeKeyAskCount with
  | [rawAskCount] =>
    (match MustAtoi rawAskCount with
     | Except.error err => ⟨Outcome.panicked err, c1, t2⟩
     | Except.ok askCount =>
     match h.GetEventValues log h.EventTypeRequest h.AttributeKeyMinCount with
     | [rawMinCount] =>
       (match MustAtoi rawMinCount with
        | Except.error err => ⟨Outcome.panicked err, c1, t2⟩
        | Except.ok minCount =>
        match h.GetEventValues log h.EventTypeRequest h.AttributeKeyCalldata with
        | [rawCallData] =>
          let t3 := t2 ++
            logIfError ":skull: Fail to parse call data: %s" (hexDecodeString rawCallData).2
          ⟨Outcome.returned, c1, t3 ++ [Effect.enqueue
            { msg := NewMsgReportData (toUint64 id) reports c.validator,
              execVersion := execVersions,
              keyIndex := keyIndex,
              feeEstimationData :=
                { askCount := askCount,
                  minCount := minCount,
                  callData := (hexDecodeString rawCallData).1,
                  rawRequests := reqs,
                  clientID :=
                    (h.GetEventValues log h.EventTypeRequest
                      h.AttributeKeyClientID).headD "" } }]⟩
        | _ => ⟨Outcome.panicked "Fail to get call data", c1, t2⟩)
     | _ => ⟨Outcome.panicked "Fail to get min count", c1, t2⟩)
  | _ => ⟨Outcome.panicked "Fail to get ask count", c1, t2⟩

/-- The loop of `handlePendingRequest` that prepares the raw requests; an error of
`GetDataSourceHash` ends the whole handler. -/
def prepareRawRequests (h : Helpers) :
    List RawRequestRecord → List rawRequest → Except GoError (List rawRequest)
  | [], rawRequests => Except.ok rawRequests
  | raw :: rest, rawRequests =>
    match h.GetDataSourceHash raw.DataSourceID with
    | Except.error err => Except.error err
    | Except.ok hash =>
      prepareRawRequests h rest (rawRequests ++
        [{ dataSourceID := raw.DataSourceID, dataSourceHash := hash,
           externalID := raw.ExternalID, calldata := raw.Calldata }])

/-- The body of `handlePendingRequest`. -/
def handlePendingRequest (h : Helpers) (g : Nat → Gateways) (s : Sched) (c : Context)
    (id : RequestID) : Run :=
  match h.GetRequest id with
  | Except.error err =>
    ⟨Outcome.returned, c,
      [Effect.logError ":skull: Failed to get request with error: %s" [err]]⟩
  | Except.ok req =>
  let t1 : List Effect := [Effect.logInfo ":delivery_truck: Processing pending request"]
  let keyIndex := (nextKeyIndex c).1
  let c1 := (nextKeyIndex c).2
  match c1.keys[keyIndex]? with
  | none => ⟨Outcome.panicked "index out of range", c1, t1⟩
  | some key =>
  match prepareRawRequests h req.RawRequests [] with
  | Except.error err =>
    ⟨Outcome.returned, c1,
      t1 ++ [Effect.logError ":skull: Failed to get data source hash with error: %s" [err]]⟩
  | Except.ok rawRequests =>
  let ex := handleRawRequests g s c1 id rawRequests key
  let t2 := t1 ++ [Effect.execute c1 id rawRequests key ex.tasks]
  match ex.result with
  | none => ⟨Outcome.blocked, c1, t2⟩
  | some (reports, execVersions) =>
    ⟨Outcome.returned, c1, t2 ++ [Effect.enqueue
      { msg := NewMsgReportData id reports c.validator,
        execVersion := execVersions,
        keyIndex := keyIndex,
        feeEstimationData :=
          { askCount := toInt64 req.RequestedValidators.length,
            minCount := toInt64 req.MinCount,
            callData := req.Calldata,
            rawRequests := rawRequests,
            clientID := req.ClientID } }]⟩

/-- Whether an effect hands tasks to `handleRawRequests`. -/
def Effect.isExecute : Effect → Bool
  | Effect.execute _ _ _ _ _ => true
  | _ => false

/-- Whether an effect sends on `pendingMsgs`. -/
def Effect.isEnqueue : Effect → Bool
  | Effect.enqueue _ => true
  | _ => false

/-- For a hand-off to `handleRawRequests`: whether the request id is in the in-flight
set of the context at that moment. -/
def Effect.inFlightAtHandoff : Effect → Option Bool
  | Effect.execute c id _ _ _ => some (c.pendingRequests id)
  | _ => none

/-- For a hand-off to `handleRawRequests`: the task traces it starts. -/
def Effect.tasksRun : Effect → List (List TaskEffect)
  | Effect.execute _ _ _ _ tasks => tasks
  | _ => []

/-! ## Sample inputs -/

/-- A context with one key and an empty in-flight set. -/
def sampleContext : Context :=
  { validator := "bandvaloper1me", chainID := "band-test", keys := [{ name := "reporter0" }],
    pendingRequests := fun _ => false, keyRoundRobinIndex := 0 }

/-- Collaborators that all succeed, except that the data source with hash `missing`
cannot be loaded, the key `locked` cannot sign and the calldata `[0]` crashes the sandbox.
The sandbox answers with exit code `code`. -/
def sampleGateways (code : Nat) : Gateways :=
  { GetExecutable := fun hash =>
      if hash = "missing" then Except.error "data source not found" else Except.ok [1, 2, 3],
    GetSignBytes := fun vmsg => [vmsg.RequestID, vmsg.ExternalID, vmsg.DataSourceID],
    Sign := fun name msg =>
      if name = "locked" then Except.error "key is locked" else Except.ok (msg, [171, 205]),
    Exec := fun _ calldata _ =>
      if calldata = [0] then Except.error "sandbox crashed"
      else Except.ok { Output := calldata, Code := code, Version := "lambda:1.0" } }

/-- The signing key of the sample context. -/
def sampleKey : KeyInfo := { name := "reporter0" }

/-- A task whose data source resolves. -/
def sampleTask (eid : ExternalID) : rawRequest :=
  { dataSourceID := 7, dataSourceHash := "abc", externalID := eid, calldata := [104, 105] }

/-- A task whose data source cannot be loaded. -/
def sampleTaskMissing (eid : ExternalID) : rawRequest :=
  { dataSourceID := 8, dataSourceHash := "missing", externalID := eid, calldata := [104, 105] }

/-- The result of a sandbox run that succeeds with the script's own exit code 255. -/
def sampleResult255 : processingResult :=
  { rawReport := { ExternalID := 1, ExitCode := 255, Output := [104, 105] },
    version := "lambda:1.0", err := none }

/-- Three tasks with external ids 1, 2, 3; the data source of task 2 cannot be loaded. -/
def sampleTasks : List rawRequest := [sampleTask 1, sampleTaskMissing 2, sampleTask 3]

/-- A schedule under which the results arrive in spawn order. -/
def schedInOrder : Sched := { deliver := [0, 1, 2], rangeOrder := fun keys => keys }

/-- A schedule under which the third task finishes first. -/
def schedLastFirst : Sched := { deliver := [2, 0, 1], rangeOrder := fun keys => keys }

/-- A reader of event attributes for the sample logs: the values of all attributes with
the given key in the events of the given type, in log order. -/
def sampleGetEventValues (log : ABCIMessageLog) (evType evKey : String) : List String :=
  ((log.events.filter (fun ev => ev.type = evType)).map
    (fun ev => (ev.attributes.filter (fun a => a.key = evKey)).map (fun a => a.value))).flatten

/-- A reader of a unique event attribute for the sample logs. -/
def sampleGetEventValue (log : ABCIMessageLog) (evType evKey : String) :
    Except GoError String :=
  match sampleGetEventValues log evType evKey with
  | [] => Except.error "Cannot find event"
  | [v] => Except.ok v
  | _ => Except.error "Found more than one event"

/-- Helpers for the sample logs; the raw requests of every log are the given ones. -/
def sampleHelpers (raws : List rawRequest × Option GoError) : Helpers :=
  { EventTypeRequest := "request",
    AttributeKeyID := "id",
    AttributeKeyValidator := "validator",
    AttributeKeyAskCount := "ask_count",
    AttributeKeyMinCount := "min_count",
    AttributeKeyCalldata := "calldata",
    AttributeKeyClientID := "client_id",
    GetEventValue := sampleGetEventValue,
    GetEventValues := sampleGetEventValues,
    GetRawRequests := fun _ => raws,
    GetRequest := fun id =>
      if id = 42 then
        Except.ok { RawRequests := [{ DataSourceID := 7, ExternalID := 1, Calldata := [104, 105] }],
                    RequestedValidators := ["bandvaloper1other", "bandvaloper1me"],
                    MinCount := 1, Calldata := [104, 105], ClientID := "client" }
      else Except.error "request not found",
    GetDataSourceHash := fun _ => Except.ok "abc" }

/-- A well-formed data-request log for request 42 that names this validator. -/
def logFull : ABCIMessageLog :=
  { events := [{ type := "request", attributes :=
      [ { key := "id", value := "42" },
        { key := "validator", value := "bandvaloper1other" },
        { key := "validator", value := "bandvaloper1me" },
        { key := "ask_count", value := "2" },
        { key := "min_count", value := "1" },
        { key := "calldata", value := "6869" },
        { key := "client_id", value := "client" } ] }] }

/-- The same log without its ask-count attribute. -/
def logNoAskCount : ABCIMessageLog :=
  { events := [{ type := "request", attributes :=
      [ { key := "id", value := "42" },
        { key := "validator", value := "bandvaloper1other" },
        { key := "validator", value := "bandvaloper1me" },
        { key := "min_count", value := "1" },
        { key := "calldata", value := "6869" },
        { key := "client_id", value := "client" } ] }] }

/-- A data-request log that does not name this validator. -/
def logOtherValidator : ABCIMessageLog :=
  { events := [{ type := "request", attributes :=
      [ { key := "id", value := "42" },
        { key := "validator", value := "bandvaloper1other" },
        { key := "ask_count", value := "1" },
        { key := "min_count", value := "1" },
        { key := "calldata", value := "6869" } ] }] }

/-- A schedule for a request with a single task. -/
def schedSingle : Sched := { deliver := [0], rangeOrder := fun keys => keys }

/-- The well-formed log with a calldata attribute that is not hexadecimal. -/
def logBadCalldata : ABCIMessageLog :=
  { events := [{ type := "request", attributes :=
      [ { key := "id", value := "42" },
        { key := "validator", value := "bandvaloper1me" },
        { key := "ask_count", value := "2" },
        { key := "min_count", value := "1" },
        { key := "calldata", value := "68zz" } ] }] }

/-- The sample context after the caller of the polled path has put request 42 in the
in-flight set. -/
def sampleContextPolled : Context :=
  { sampleContext with pendingRequests := fun id => id == 42 }

/-- The collaborators as every goroutine of the sample runs sees them. -/
def sampleG : Nat → Gateways := fun _ => sampleGateways 0

/-- The helpers of the sample runs: every log carries the single task 1. -/
def sampleH : Helpers := sampleHelpers ([sampleTask 1], none)

/-! ## Properties of one task -/

/-- Every task goroutine sends exactly one result, which carries the task's external id. -/
theorem sent_handleRawRequest (g : Gateways) (c : Context) (req : rawRequest) (key : KeyInfo)
    (id : RequestID) :
    ∃ r, sent (handleRawRequest g c req key id) = [r] ∧
      r.rawReport.ExternalID = req.externalID := by
  unfold handleRawRequest
  cases h1 : g.GetExecutable req.dataSourceHash with
  | error e => simp [sent, NewRawReport]
  | ok exec =>
    cases h2 : g.Sign key.name
        (g.GetSignBytes
          (vmsg c req id)) with
    | error e => simp [sent, h2, NewRawReport]
    | ok sp =>
      obtain ⟨sig, pubkey⟩ := sp
      cases h3 : g.Exec exec req.calldata
          (execEnv (vmsg c req id) sig pubkey) with
      | error e => simp [sent, h2, h3, NewRawReport]
      | ok result => simp [sent, h2, h3, NewRawReport]

/-- The single result sent when the executable cannot be loaded. -/
theorem sent_of_load_failure (g : Gateways) (c : Context) (req : rawRequest) (key : KeyInfo)
    (id : RequestID) (err : GoError)
    (hload : g.GetExecutable req.dataSourceHash = Except.error err) :
    sent (handleRawRequest g c req key id) =
      [{ rawReport := { ExternalID := req.externalID, ExitCode := 255,
                        Output := bytesOfString "FAIL_TO_LOAD_DATA_SOURCE" },
         version := "", err := some err }] := by
  simp [handleRawRequest, hload, sent, NewRawReport]

/-- The single result sent when signing fails. -/
theorem sent_of_sign_failure (g : Gateways) (c : Context) (req : rawRequest) (key : KeyInfo)
    (id : RequestID) (exec : Bytes) (err : GoError)
    (hload : g.GetExecutable req.dataSourceHash = Except.ok exec)
    (hsign : g.Sign key.name (g.GetSignBytes (vmsg c req id)) = Except.error err) :
    sent (handleRawRequest g c req key id) =
      [{ rawReport := { ExternalID := req.externalID, ExitCode := 255, Output := [] },
         version := "", err := some err }] := by
  simp [handleRawRequest, hload, hsign, sent, NewRawReport]

/-- The single result sent when the executor returns an error. -/
theorem sent_of_exec_failure (g : Gateways) (c : Context) (req : rawRequest) (key : KeyInfo)
    (id : RequestID) (exec sig pubkey : Bytes) (err : GoError)
    (hload : g.GetExecutable req.dataSourceHash = Except.ok exec)
    (hsign : g.Sign key.name (g.GetSignBytes (vmsg c req id)) = Except.ok (sig, pubkey))
    (hexec : g.Exec exec req.calldata (execEnv (vmsg c req id) sig pubkey) = Except.error err) :
    sent (handleRawRequest g c req key id) =
      [{ rawReport := { ExternalID := req.externalID, ExitCode := 255, Output := [] },
         version := "", err := some err }] := by
  simp [handleRawRequest, hload, hsign, hexec, sent, NewRawReport]

/-- The single result sent when all three steps succeed. -/
theorem sent_of_success (g : Gateways) (c : Context) (req : rawRequest) (key : KeyInfo)
    (id : RequestID) (exec sig pubkey : Bytes) (result : ExecResult)
    (hload : g.GetExecutable req.dataSourceHash = Except.ok exec)
    (hsign : g.Sign key.name (g.GetSignBytes (vmsg c req id)) = Except.ok (sig, pubkey))
    (hexec : g.Exec exec req.calldata (execEnv (vmsg c req id) sig pubkey) = Except.ok result) :
    sent (handleRawRequest g c req key id) =
      [{ rawReport := { ExternalID := req.externalID, ExitCode := result.Code,
                        Output := result.Output },
         version := result.Version, err := none }] := by
  simp [handleRawRequest, hload, hsign, hexec, sent, NewRawReport]


/-- C7: when `GetExecutable` fails on the task's data-source hash, the goroutine sends
exactly one result, `(external id, 255, "FAIL_TO_LOAD_DATA_SOURCE")` with a non-nil error,
the fan-in loop records no version for it, and neither the signer nor the executor is
called. -/
theorem handleRawRequest_load_failure (g : Gateways) (c : Context) (req : rawRequest)
    (key : KeyInfo) (id : RequestID) (err : GoError)
    (hload : g.GetExecutable req.dataSourceHash = Except.error err) :
    sent (handleRawRequest g c req key id) =
        [{ rawReport := { ExternalID := req.externalID, ExitCode := 255,
                          Output := bytesOfString "FAIL_TO_LOAD_DATA_SOURCE" },
           version := "", err := some err }] ∧
      (∀ r ∈ sent (handleRawRequest g c req key id), ∀ versions,
        recordVersion versions r = versions) ∧
      (handleRawRequest g c req key id).any TaskEffect.isSign = false ∧
      (handleRawRequest g c req key id).any TaskEffect.isExec = false := by
  have hs := sent_of_load_failure g c req key id err hload
  refine ⟨hs, ?_, ?_, ?_⟩
  · intro r hr versions
    rw [hs] at hr
    simp at hr
    subst hr
    simp [recordVersion]
  · simp [handleRawRequest, hload, TaskEffect.isSign]
  · simp [handleRawRequest, hload, TaskEffect.isExec]

/-- The load-failure property on the sample task whose data source is missing. -/
theorem handleRawRequest_load_failure_witness :
    sent (handleRawRequest (sampleGateways 0) sampleContext (sampleTaskMissing 2) sampleKey 42) =
        [{ rawReport := { ExternalID := 2, ExitCode := 255,
                          Output := bytesOfString "FAIL_TO_LOAD_DATA_SOURCE" },
           version := "", err := some "data source not found" }] ∧
      (∀ r ∈ sent (handleRawRequest (sampleGateways 0) sampleContext (sampleTaskMissing 2)
          sampleKey 42), ∀ versions, recordVersion versions r = versions) ∧
      (handleRawRequest (sampleGateways 0) sampleContext (sampleTaskMissing 2) sampleKey 42).any
        TaskEffect.isSign = false ∧
      (handleRawRequest (sampleGateways 0) sampleContext (sampleTaskMissing 2) sampleKey 42).any
        TaskEffect.isExec = false :=
  handleRawRequest_load_failure (sampleGateways 0) sampleContext (sampleTaskMissing 2) sampleKey 42
    "data source not found" (by simp [sampleGateways, sampleTaskMissing])

/-- The bytes of the load-failure marker. -/
theorem bytesOfString_fail_marker :
    bytesOfString "FAIL_TO_LOAD_DATA_SOURCE" =
      [70, 65, 73, 76, 95, 84, 79, 95, 76, 79, 65, 68, 95, 68, 65, 84, 65, 95, 83, 79, 85, 82,
       67, 69] := by
  decide

/-- C8: when the executable resolves but signing fails, or signing succeeds but the sandbox
call returns an error, the goroutine sends exactly one result, `(external id, 255, empty)`
with a non-nil error, the fan-in loop records no version for it, and after a signing
failure the executor is not called. -/
theorem handleRawRequest_sign_or_exec_failure (g : Gateways) (c : Context) (req : rawRequest)
    (key : KeyInfo) (id : RequestID) (exec : Bytes)
    (hload : g.GetExecutable req.dataSourceHash = Except.ok exec)
    (hfail :
      (∃ e, g.Sign key.name (g.GetSignBytes (vmsg c req id)) = Except.error e) ∨
      (∃ sig pubkey e,
        g.Sign key.name (g.GetSignBytes (vmsg c req id)) = Except.ok (sig, pubkey) ∧
        g.Exec exec req.calldata (execEnv (vmsg c req id) sig pubkey) = Except.error e)) :
    (∃ e, sent (handleRawRequest g c req key id) =
        [{ rawReport := { ExternalID := req.externalID, ExitCode := 255, Output := [] },
           version := "", err := some e }]) ∧
      (∀ r ∈ sent (handleRawRequest g c req key id), ∀ versions,
        recordVersion versions r = versions) ∧
      ((∃ e, g.Sign key.name (g.GetSignBytes (vmsg c req id)) = Except.error e) →
        (handleRawRequest g c req key id).any TaskEffect.isExec = false) := by
  have hs : ∃ e, sent (handleRawRequest g c req key id) =
      [{ rawReport := { ExternalID := req.externalID, ExitCode := 255, Output := [] },
         version := "", err := some e }] := by
    rcases hfail with ⟨e, he⟩ | ⟨sig, pubkey, e, hsig, he⟩
    · exact ⟨e, sent_of_sign_failure g c req key id exec e hload he⟩
    · exact ⟨e, sent_of_exec_failure g c req key id exec sig pubkey e hload hsig he⟩
  refine ⟨hs, ?_, ?_⟩
  · obtain ⟨e, he⟩ := hs
    intro r hr versions
    rw [he] at hr
    simp at hr
    subst hr
    simp [recordVersion]
  · rintro ⟨e, he⟩
    simp [handleRawRequest, hload, he, TaskEffect.isExec]

/-- The signing-failure property on a sample task signed with the locked key. -/
theorem handleRawRequest_sign_or_exec_failure_witness :
    (∃ e, sent (handleRawRequest (sampleGateways 0) sampleContext (sampleTask 5)
        { name := "locked" } 42) =
        [{ rawReport := { ExternalID := 5, ExitCode := 255, Output := [] },
           version := "", err := some e }]) ∧
      (∀ r ∈ sent (handleRawRequest (sampleGateways 0) sampleContext (sampleTask 5)
          { name := "locked" } 42), ∀ versions, recordVersion versions r = versions) ∧
      ((∃ e, (sampleGateways 0).Sign "locked" ((sampleGateways 0).GetSignBytes
          (vmsg sampleContext (sampleTask 5) 42)) = Except.error e) →
        (handleRawRequest (sampleGateways 0) sampleContext (sampleTask 5)
          { name := "locked" } 42).any TaskEffect.isExec = false) :=
  handleRawRequest_sign_or_exec_failure (sampleGateways 0) sampleContext (sampleTask 5)
    { name := "locked" } 42 [1, 2, 3] (by simp [sampleGateways, sampleTask])
    (Or.inl ⟨"key is locked", by simp [sampleGateways]⟩)

/-- C9: when resolution, signing and the sandbox call all succeed, the goroutine sends
exactly one result: the report carries the task's external id and the executor's exit code
and output, the error is nil and the version is the executor's version string. -/
theorem handleRawRequest_success (g : Gateways) (c : Context) (req : rawRequest)
    (key : KeyInfo) (id : RequestID) (exec sig pubkey : Bytes) (result : ExecResult)
    (hload : g.GetExecutable req.dataSourceHash = Except.ok exec)
    (hsign : g.Sign key.name (g.GetSignBytes (vmsg c req id)) = Except.ok (sig, pubkey))
    (hexec : g.Exec exec req.calldata (execEnv (vmsg c req id) sig pubkey) = Except.ok result) :
    sent (handleRawRequest g c req key id) =
      [{ rawReport := { ExternalID := req.externalID, ExitCode := result.Code,
                        Output := result.Output },
         version := result.Version, err := none }] :=
  sent_of_success g c req key id exec sig pubkey result hload hsign hexec

/-- The success property on a sample task whose script exits with code 3. -/
theorem handleRawRequest_success_witness :
    sent (handleRawRequest (sampleGateways 3) sampleContext (sampleTask 1) sampleKey 42) =
      [{ rawReport := { ExternalID := 1, ExitCode := 3, Output := [104, 105] },
         version := "lambda:1.0", err := none }] :=
  handleRawRequest_success (sampleGateways 3) sampleContext (sampleTask 1) sampleKey 42
    [1, 2, 3] [42, 1, 7] [171, 205] { Output := [104, 105], Code := 3, Version := "lambda:1.0" }
    (by simp [sampleGateways, sampleTask])
    (by simp [sampleGateways, sampleKey, sampleContext, sampleTask, NewRequestVerification, vmsg])
    (by simp [sampleGateways, sampleTask])

/-- C10 as stated fails: a sandbox run that succeeds with the script's own exit code 255
yields a report with ExitCode 255, a nil error and a recorded version. -/
theorem exit_code_255_not_reserved :
    (sampleGateways 255).GetExecutable (sampleTask 1).dataSourceHash = Except.ok [1, 2, 3] ∧
    (sampleGateways 255).Sign sampleKey.name ((sampleGateways 255).GetSignBytes
        (vmsg sampleContext (sampleTask 1) 42)) =
      Except.ok ([42, 1, 7], [171, 205]) ∧
    (sampleGateways 255).Exec [1, 2, 3] (sampleTask 1).calldata
        (execEnv (vmsg sampleContext (sampleTask 1) 42) [42, 1, 7] [171, 205]) =
      Except.ok { Output := [104, 105], Code := 255, Version := "lambda:1.0" } ∧
    sent (handleRawRequest (sampleGateways 255) sampleContext (sampleTask 1) sampleKey 42) =
      [{ rawReport := { ExternalID := 1, ExitCode := 255, Output := [104, 105] },
         version := "lambda:1.0", err := none }] := by
  refine ⟨?_, ?_, ?_, ?_⟩
  · simp [sampleGateways, sampleTask]
  · simp [sampleGateways, sampleKey, sampleContext, sampleTask, NewRequestVerification, vmsg]
  · simp [sampleGateways, sampleTask]
  · simp [handleRawRequest, sampleGateways, sampleKey, sampleContext, sampleTask,
      NewRequestVerification, vmsg, sent, NewRawReport]

/-- C10, amended: a report with ExitCode 255 comes either from a task whose resolution,
signing or sandbox call failed (the error is then non-nil and no version is set), or from
a sandbox run that succeeded and itself returned exit code 255; a run that succeeds with
another exit code never yields ExitCode 255. -/
theorem exit_code_255_origin (g : Gateways) (c : Context) (req : rawRequest) (key : KeyInfo)
    (id : RequestID) (r : processingResult)
    (hr : r ∈ sent (handleRawRequest g c req key id)) :
    (r.rawReport.ExitCode = 255 →
      ((r.err ≠ none ∧ r.version = "" ∧
        ((∃ e, g.GetExecutable req.dataSourceHash = Except.error e) ∨
         (∃ e, g.Sign key.name (g.GetSignBytes (vmsg c req id)) = Except.error e) ∨
         (∃ exec sig pubkey e, g.GetExecutable req.dataSourceHash = Except.ok exec ∧
            g.Sign key.name (g.GetSignBytes (vmsg c req id)) = Except.ok (sig, pubkey) ∧
            g.Exec exec req.calldata (execEnv (vmsg c req id) sig pubkey) = Except.error e))) ∨
       (r.err = none ∧
        ∃ exec sig pubkey result, g.GetExecutable req.dataSourceHash = Except.ok exec ∧
          g.Sign key.name (g.GetSignBytes (vmsg c req id)) = Except.ok (sig, pubkey) ∧
          g.Exec exec req.calldata (execEnv (vmsg c req id) sig pubkey) = Except.ok result ∧
          result.Code = 255 ∧ r.version = result.Version))) ∧
    (∀ exec sig pubkey result, g.GetExecutable req.dataSourceHash = Except.ok exec →
      g.Sign key.name (g.GetSignBytes (vmsg c req id)) = Except.ok (sig, pubkey) →
      g.Exec exec req.calldata (execEnv (vmsg c req id) sig pubkey) = Except.ok result →
      result.Code ≠ 255 → r.rawReport.ExitCode ≠ 255) := by
  constructor
  · intro h255
    cases h1 : g.GetExecutable req.dataSourceHash with
    | error e =>
      have hs := sent_of_load_failure g c req key id e h1
      rw [hs] at hr
      simp at hr
      subst hr
      exact Or.inl ⟨by simp, rfl, Or.inl ⟨e, rfl⟩⟩
    | ok exec =>
      cases h2 : g.Sign key.name (g.GetSignBytes (vmsg c req id)) with
      | error e =>
        have hs := sent_of_sign_failure g c req key id exec e h1 h2
        rw [hs] at hr
        simp at hr
        subst hr
        exact Or.inl ⟨by simp, rfl, Or.inr (Or.inl ⟨e, rfl⟩)⟩
      | ok sp =>
        obtain ⟨sig, pubkey⟩ := sp
        cases h3 : g.Exec exec req.calldata (execEnv (vmsg c req id) sig pubkey) with
        | error e =>
          have hs := sent_of_exec_failure g c req key id exec sig pubkey e h1 h2 h3
          rw [hs] at hr
          simp at hr
          subst hr
          exact Or.inl ⟨by simp, rfl, Or.inr (Or.inr ⟨exec, sig, pubkey, e, rfl, rfl, h3⟩)⟩
        | ok result =>
          have hs := sent_of_success g c req key id exec sig pubkey result h1 h2 h3
          rw [hs] at hr
          simp at hr
          subst hr
          exact Or.inr ⟨rfl, exec, sig, pubkey, result, rfl, rfl, h3, h255, rfl⟩
  · intro exec sig pubkey result h1 h2 h3 hne
    have hs := sent_of_success g c req key id exec sig pubkey result h1 h2 h3
    rw [hs] at hr
    simp at hr
    subst hr
    exact hne

/-- The origin of ExitCode 255 on the sample run whose script exits with 255: the report
is sent, and it comes from a failed step or from a successful run with exit code 255. -/
theorem exit_code_255_origin_witness :
    sampleResult255 ∈
      sent (handleRawRequest (sampleGateways 255) sampleContext (sampleTask 1) sampleKey 42) ∧
    ((sampleResult255.err ≠ none ∧ sampleResult255.version = "" ∧
      ((∃ e, (sampleGateways 255).GetExecutable (sampleTask 1).dataSourceHash =
          Except.error e) ∨
       (∃ e, (sampleGateways 255).Sign sampleKey.name
          ((sampleGateways 255).GetSignBytes (vmsg sampleContext (sampleTask 1) 42)) =
          Except.error e) ∨
       (∃ exec sig pubkey e,
          (sampleGateways 255).GetExecutable (sampleTask 1).dataSourceHash = Except.ok exec ∧
          (sampleGateways 255).Sign sampleKey.name
            ((sampleGateways 255).GetSignBytes (vmsg sampleContext (sampleTask 1) 42)) =
            Except.ok (sig, pubkey) ∧
          (sampleGateways 255).Exec exec (sampleTask 1).calldata
            (execEnv (vmsg sampleContext (sampleTask 1) 42) sig pubkey) = Except.error e))) ∨
     (sampleResult255.err = none ∧
      ∃ exec sig pubkey result,
        (sampleGateways 255).GetExecutable (sampleTask 1).dataSourceHash = Except.ok exec ∧
        (sampleGateways 255).Sign sampleKey.name
          ((sampleGateways 255).GetSignBytes (vmsg sampleContext (sampleTask 1) 42)) =
          Except.ok (sig, pubkey) ∧
        (sampleGateways 255).Exec exec (sampleTask 1).calldata
          (execEnv (vmsg sampleContext (sampleTask 1) 42) sig pubkey) = Except.ok result ∧
        result.Code = 255 ∧ sampleResult255.version = result.Version)) :=
  ⟨by decide,
   (exit_code_255_origin (sampleGateways 255) sampleContext (sampleTask 1) sampleKey 42
     sampleResult255 (by decide)).1 rfl⟩

/-! ## Properties of the fan-in -/

/-- Reading a list at every position in turn gives the list back. -/
theorem filterMap_getElem?_range {α : Type} (l : List α) :
    (List.range l.length).filterMap (fun i => l[i]?) = l := by
  induction l with
  | nil => simp
  | cons a l ih =>
    rw [List.length_cons, List.range_succ_eq_map]
    simp [List.filterMap_map, Function.comp_def]
    exact ih

/-- With every sent result delivered once, the channel holds a permutation of them. -/
theorem delivered_perm (s : Sched) (tasks : List (List TaskEffect))
    (hs : s.deliver.Perm (List.range ((tasks.map sent).flatten).length)) :
    (delivered s tasks).Perm ((tasks.map sent).flatten) := by
  have h := List.Perm.filterMap (fun i => ((tasks.map sent).flatten)[i]?) hs
  rw [filterMap_getElem?_range] at h
  exact h

/-- The fan-in loop, fed as many results as there are tasks, returns: the reports in
arrival order and the version set folded over the arrivals. -/
theorem fanIn_eq (reqs : List rawRequest) :
    ∀ (ch : List processingResult) (reports : List RawReport) (versions : List String),
      ch.length = reqs.length →
      fanIn reqs ch reports versions =
        some (reports ++ ch.map (fun r => r.rawReport), ch.foldl recordVersion versions) := by
  induction reqs with
  | nil =>
    intro ch reports versions h
    have : ch = [] := List.length_eq_zero.mp (by simpa using h)
    subst this
    simp [fanIn]
  | cons req rest ih =>
    intro ch reports versions h
    cases ch with
    | nil => simp at h
    | cons r ch =>
      simp only [fanIn]
      rw [ih ch _ _ (by simpa using h)]
      simp

/-- The goroutines send as many results as there are tasks. -/
theorem spawnAll_sent_length (g : Nat → Gateways) (c : Context) (key : KeyInfo)
    (id : RequestID) (reqs : List rawRequest) :
    ∀ i, (((spawnAll g c key id i reqs).map sent).flatten).length = reqs.length := by
  induction reqs with
  | nil => intro i; simp [spawnAll]
  | cons req rest ih =>
    intro i
    obtain ⟨r, hr, _⟩ := sent_handleRawRequest (g i) c req key id
    simp [spawnAll, hr, ih (i + 1)]

/-- The results sent carry the external ids of the tasks, in spawn order. -/
theorem spawnAll_sent_ids (g : Nat → Gateways) (c : Context) (key : KeyInfo)
    (id : RequestID) (reqs : List rawRequest) :
    ∀ i, (((spawnAll g c key id i reqs).map sent).flatten).map
        (fun r => r.rawReport.ExternalID) = reqs.map (fun req => req.externalID) := by
  induction reqs with
  | nil => intro i; simp [spawnAll]
  | cons req rest ih =>
    intro i
    obtain ⟨r, hr, hid⟩ := sent_handleRawRequest (g i) c req key id
    simp [spawnAll, hr, hid, ih (i + 1)]

/-- A result is sent exactly when the goroutine of some task sends it. -/
theorem mem_spawnAll_sent (g : Nat → Gateways) (c : Context) (key : KeyInfo)
    (id : RequestID) (reqs : List rawRequest) (r : processingResult) :
    ∀ i, r ∈ ((spawnAll g c key id i reqs).map sent).flatten ↔
      ∃ k req, reqs[k]? = some req ∧
        r ∈ sent (handleRawRequest (g (i + k)) c req key id) := by
  induction reqs with
  | nil => intro i; simp [spawnAll]
  | cons req rest ih =>
    intro i
    simp only [spawnAll, List.map_cons, List.flatten_cons, List.mem_append, ih (i + 1)]
    constructor
    · rintro (h | ⟨k, req2, hk, h⟩)
      · exact ⟨0, req, by simp, by simpa using h⟩
      · exact ⟨k + 1, req2, by simpa using hk, by
          have : i + 1 + k = i + (k + 1) := by omega
          rwa [this] at h⟩
    · rintro ⟨k, req2, hk, h⟩
      cases k with
      | zero =>
        simp at hk
        subst hk
        exact Or.inl (by simpa using h)
      | succ k =>
        refine Or.inr ⟨k, req2, by simpa using hk, ?_⟩
        have : i + 1 + k = i + (k + 1) := by omega
        rwa [this]

/-- Under a schedule that delivers every sent result once, `handleRawRequests` returns,
with the reports in arrival order. -/
theorem handleRawRequests_result (g : Nat → Gateways) (s : Sched) (c : Context)
    (id : RequestID) (reqs : List rawRequest) (key : KeyInfo)
    (hs : s.deliver.Perm (List.range reqs.length)) :
    (handleRawRequests g s c id reqs key).result =
      some ((delivered s (spawnAll g c key id 0 reqs)).map (fun r => r.rawReport),
            s.rangeOrder ((delivered s (spawnAll g c key id 0 reqs)).foldl recordVersion [])) ∧
    (delivered s (spawnAll g c key id 0 reqs)).Perm (taskResults g c key id reqs) := by
  have hlen := spawnAll_sent_length g c key id reqs 0
  have hperm : (delivered s (spawnAll g c key id 0 reqs)).Perm (taskResults g c key id reqs) :=
    delivered_perm s _ (by rw [hlen]; exact hs)
  refine ⟨?_, hperm⟩
  have hl : (delivered s (spawnAll g c key id 0 reqs)).length = reqs.length := by
    rw [hperm.length_eq]
    exact hlen
  simp [handleRawRequests, fanIn_eq reqs _ [] [] hl]

/-- Writing a key keeps the key set free of duplicates. -/
theorem nodup_mapSet (keys : List String) (k : String) (h : keys.Nodup) :
    (mapSet keys k).Nodup := by
  unfold mapSet
  split
  · exact h
  · rename_i hk
    exact List.Nodup.append h (List.nodup_singleton k) (by simpa using hk)

/-- The keys after a write are the old keys and the written one. -/
theorem mem_mapSet (keys : List String) (k v : String) :
    v ∈ mapSet keys k ↔ v ∈ keys ∨ v = k := by
  unfold mapSet
  split
  · rename_i hk
    constructor
    · exact Or.inl
    · rintro (h | h)
      · exact h
      · subst h; exact hk
  · simp

/-- The version set stays free of duplicates through the fan-in loop. -/
theorem nodup_foldl_recordVersion (ch : List processingResult) :
    ∀ versions : List String, versions.Nodup → (ch.foldl recordVersion versions).Nodup := by
  induction ch with
  | nil => intro versions h; simpa using h
  | cons r ch ih =>
    intro versions h
    simp only [List.foldl_cons]
    apply ih
    unfold recordVersion
    split
    · exact nodup_mapSet _ _ h
    · exact h

/-- The version set after the fan-in loop: the initial keys and the versions of the
results received without error. -/
theorem mem_foldl_recordVersion (ch : List processingResult) (v : String) :
    ∀ versions : List String, v ∈ ch.foldl recordVersion versions ↔
      v ∈ versions ∨ ∃ r ∈ ch, r.err = none ∧ r.version = v := by
  induction ch with
  | nil => intro versions; simp
  | cons r ch ih =>
    intro versions
    simp only [List.foldl_cons, ih, List.mem_cons, exists_eq_or_imp]
    unfold recordVersion
    split
    · rename_i he
      rw [mem_mapSet]
      constructor
      · rintro ((h | h) | h)
        · exact Or.inl h
        · exact Or.inr (Or.inl ⟨he, h.symm⟩)
        · exact Or.inr (Or.inr h)
      · rintro (h | ⟨_, h⟩ | h)
        · exact Or.inl (Or.inl h)
        · exact Or.inl (Or.inr h.symm)
        · exact Or.inr h
    · rename_i he
      constructor
      · rintro (h | h)
        · exact Or.inl h
        · exact Or.inr (Or.inr h)
      · rintro (h | ⟨h, _⟩ | h)
        · exact Or.inl h
        · exact absurd h he
        · exact Or.inr h

/-- C1: for tasks with pairwise distinct external ids, whatever the collaborators answer
and in whatever order the results arrive, `handleRawRequests` returns, with as many reports
as there are tasks, exactly one of them for each task's external id. -/
theorem handleRawRequests_one_report_per_task (g : Nat → Gateways) (s : Sched) (c : Context)
    (id : RequestID) (reqs : List rawRequest) (key : KeyInfo)
    (hnd : (reqs.map (fun req => req.externalID)).Nodup)
    (hs : s.deliver.Perm (List.range reqs.length)) :
    ∃ reports execVersions,
      (handleRawRequests g s c id reqs key).result = some (reports, execVersions) ∧
      reports.length = reqs.length ∧
      ∀ req ∈ reqs, (reports.map (fun r => r.ExternalID)).count req.externalID = 1 := by
  obtain ⟨hres, hperm⟩ := handleRawRequests_result g s c id reqs key hs
  refine ⟨_, _, hres, ?_, ?_⟩
  · rw [List.length_map, hperm.length_eq]
    exact spawnAll_sent_length g c key id reqs 0
  · intro req hreq
    have hids : List.Perm
        (((delivered s (spawnAll g c key id 0 reqs)).map (fun r => r.rawReport)).map
          (fun r => r.ExternalID))
        (reqs.map (fun req => req.externalID)) := by
      rw [List.map_map]
      have h := hperm.map (fun r => r.rawReport.ExternalID)
      rw [taskResults, spawnAll_sent_ids g c key id reqs 0] at h
      exact h
    rw [hids.count_eq]
    exact List.count_eq_one_of_mem hnd (List.mem_map_of_mem _ hreq)

/-- One report per task on the sample request, with the third task finishing first. -/
theorem handleRawRequests_one_report_per_task_witness :
    ∃ reports execVersions,
      (handleRawRequests sampleG schedLastFirst sampleContext 42 sampleTasks
        sampleKey).result = some (reports, execVersions) ∧
      reports.length = sampleTasks.length ∧
      ∀ req ∈ sampleTasks, (reports.map (fun r => r.ExternalID)).count req.externalID = 1 :=
  handleRawRequests_one_report_per_task sampleG schedLastFirst sampleContext
    42 sampleTasks sampleKey (by decide) (by decide)

/-- C2 as stated fails: with the third task finishing first, the reports come back in
the order 3, 1, 2, while in spawn order they come back as 1, 2, 3. -/
theorem reports_follow_arrival_order :
    (sampleTasks.map (fun req => req.externalID)).Nodup ∧
    schedLastFirst.deliver.Perm (List.range sampleTasks.length) ∧
    ((handleRawRequests sampleG schedLastFirst sampleContext 42 sampleTasks
        sampleKey).result.map Prod.fst =
      some [ { ExternalID := 3, ExitCode := 0, Output := [104, 105] },
             { ExternalID := 1, ExitCode := 0, Output := [104, 105] },
             { ExternalID := 2, ExitCode := 255,
               Output := bytesOfString "FAIL_TO_LOAD_DATA_SOURCE" } ]) ∧
    ((handleRawRequests sampleG schedInOrder sampleContext 42 sampleTasks
        sampleKey).result.map Prod.fst =
      some [ { ExternalID := 1, ExitCode := 0, Output := [104, 105] },
             { ExternalID := 2, ExitCode := 255,
               Output := bytesOfString "FAIL_TO_LOAD_DATA_SOURCE" },
             { ExternalID := 3, ExitCode := 0, Output := [104, 105] } ]) := by
  refine ⟨by decide, by decide, ?_, ?_⟩ <;> decide

/-- Sorting by external id is insertion sort on the order of external ids. -/
theorem sortByExternalID_eq_insertionSort (l : List RawReport) :
    sortByExternalID l = List.insertionSort (fun a b => a.ExternalID ≤ b.ExternalID) l := by
  have hins : ∀ (r : RawReport) (xs : List RawReport), insertByExternalID r xs =
      List.orderedInsert (fun a b => a.ExternalID ≤ b.ExternalID) r xs := by
    intro r xs
    induction xs with
    | nil => rfl
    | cons x xs ih => simp [insertByExternalID, List.orderedInsert, ih]
  induction l with
  | nil => rfl
  | cons x xs ih => simp [sortByExternalID, List.insertionSort, ih, hins]

/-- Sorting by external id permutes the reports. -/
theorem sortByExternalID_perm (l : List RawReport) : (sortByExternalID l).Perm l := by
  rw [sortByExternalID_eq_insertionSort]
  exact List.perm_insertionSort _ l

/-- Sorting reports with distinct external ids lists them by strictly ascending id. -/
theorem sortByExternalID_sorted (l : List RawReport)
    (hnd : (l.map (fun r => r.ExternalID)).Nodup) :
    List.Sorted (fun a b : RawReport => a.ExternalID < b.ExternalID) (sortByExternalID l) := by
  have hle : List.Sorted (fun a b : RawReport => a.ExternalID ≤ b.ExternalID)
      (sortByExternalID l) := by
    rw [sortByExternalID_eq_insertionSort]
    exact @List.sorted_insertionSort RawReport (fun a b => a.ExternalID ≤ b.ExternalID) _
      ⟨fun a b => Nat.le_total a.ExternalID b.ExternalID⟩
      ⟨fun a b c hab hbc => Nat.le_trans hab hbc⟩ l
  have hnd2 : ((sortByExternalID l).map (fun r => r.ExternalID)).Nodup :=
    ((sortByExternalID_perm l).map _).nodup_iff.mpr hnd
  have h1 : List.Sorted (fun a b : Nat => a ≤ b)
      ((sortByExternalID l).map (fun r => r.ExternalID)) := List.pairwise_map.mpr hle
  exact List.pairwise_map.mp (h1.lt_of_le hnd2)

/-- Two arrival orders of reports with distinct external ids sort to the same list. -/
theorem sortByExternalID_congr (l₁ l₂ : List RawReport) (hp : l₁.Perm l₂)
    (hnd : (l₂.map (fun r => r.ExternalID)).Nodup) :
    sortByExternalID l₁ = sortByExternalID l₂ := by
  have hnd1 : (l₁.map (fun r => r.ExternalID)).Nodup := (hp.map _).nodup_iff.mpr hnd
  exact @List.eq_of_perm_of_sorted RawReport (fun a b => a.ExternalID < b.ExternalID)
    ⟨fun a b hab hba => absurd hab (Nat.lt_asymm hba)⟩ _ _
    (((sortByExternalID_perm l₁).trans hp).trans (sortByExternalID_perm l₂).symm)
    (sortByExternalID_sorted l₁ hnd1) (sortByExternalID_sorted l₂ hnd)

/-- C2, amended: for tasks with pairwise distinct external ids, the reports returned by
`handleRawRequests` are the per-task reports in the order in which the results arrive on
the channel, a permutation of the per-task reports; listed by ascending external id they
are the same sequence for every arrival order. -/
theorem handleRawRequests_reports_arrival_order (g : Nat → Gateways) (s : Sched)
    (c : Context) (id : RequestID) (reqs : List rawRequest) (key : KeyInfo)
    (hnd : (reqs.map (fun req => req.externalID)).Nodup)
    (hs : s.deliver.Perm (List.range reqs.length)) :
    ∃ reports execVersions,
      (handleRawRequests g s c id reqs key).result = some (reports, execVersions) ∧
      reports = s.deliver.filterMap
        (fun i => ((taskResults g c key id reqs).map (fun r => r.rawReport))[i]?) ∧
      reports.Perm ((taskResults g c key id reqs).map (fun r => r.rawReport)) ∧
      sortByExternalID reports =
        sortByExternalID ((taskResults g c key id reqs).map (fun r => r.rawReport)) ∧
      List.Sorted (fun a b : RawReport => a.ExternalID < b.ExternalID)
        (sortByExternalID reports) := by
  obtain ⟨hres, hperm⟩ := handleRawRequests_result g s c id reqs key hs
  have hids : ((taskResults g c key id reqs).map (fun r => r.rawReport)).map
      (fun r => r.ExternalID) = reqs.map (fun req => req.externalID) := by
    rw [List.map_map]
    exact spawnAll_sent_ids g c key id reqs 0
  have hp := hperm.map (fun r => r.rawReport)
  have hcongr := sortByExternalID_congr _ _ hp (by rw [hids]; exact hnd)
  refine ⟨_, _, hres, ?_, hp, hcongr, ?_⟩
  · simp only [delivered, taskResults, List.map_filterMap, List.getElem?_map]
  · rw [hcongr]
    exact sortByExternalID_sorted _ (by rw [hids]; exact hnd)

/-- The arrival-order property on the sample request, with the third task finishing first. -/
theorem handleRawRequests_reports_arrival_order_witness :
    ∃ reports execVersions,
      (handleRawRequests sampleG schedLastFirst sampleContext 42 sampleTasks
        sampleKey).result = some (reports, execVersions) ∧
      reports = schedLastFirst.deliver.filterMap
        (fun i => ((taskResults sampleG sampleContext sampleKey 42
          sampleTasks).map (fun r => r.rawReport))[i]?) ∧
      reports.Perm ((taskResults sampleG sampleContext sampleKey 42
          sampleTasks).map (fun r => r.rawReport)) ∧
      sortByExternalID reports =
        sortByExternalID ((taskResults sampleG sampleContext sampleKey 42
          sampleTasks).map (fun r => r.rawReport)) ∧
      List.Sorted (fun a b : RawReport => a.ExternalID < b.ExternalID)
        (sortByExternalID reports) :=
  handleRawRequests_reports_arrival_order sampleG schedLastFirst
    sampleContext 42 sampleTasks sampleKey (by decide) (by decide)

/-- A task puts a version on record exactly when its three steps succeed. -/
theorem version_of_task (g : Gateways) (c : Context) (req : rawRequest) (key : KeyInfo)
    (id : RequestID) (v : String) :
    (∃ r ∈ sent (handleRawRequest g c req key id), r.err = none ∧ r.version = v) ↔
      ∃ exec sig pubkey result, g.GetExecutable req.dataSourceHash = Except.ok exec ∧
        g.Sign key.name (g.GetSignBytes (vmsg c req id)) = Except.ok (sig, pubkey) ∧
        g.Exec exec req.calldata (execEnv (vmsg c req id) sig pubkey) = Except.ok result ∧
        result.Version = v := by
  cases h1 : g.GetExecutable req.dataSourceHash with
  | error e =>
    rw [sent_of_load_failure g c req key id e h1]
    simp
  | ok exec =>
    cases h2 : g.Sign key.name (g.GetSignBytes (vmsg c req id)) with
    | error e =>
      have hs := sent_of_sign_failure g c req key id exec e h1 h2
      rw [hs]
      simp
    | ok sp =>
      obtain ⟨sig, pubkey⟩ := sp
      cases h3 : g.Exec exec req.calldata (execEnv (vmsg c req id) sig pubkey) with
      | error e =>
        have hs := sent_of_exec_failure g c req key id exec sig pubkey e h1 h2 h3
        rw [hs]
        simp [h3]
      | ok result =>
        rw [sent_of_success g c req key id exec sig pubkey result h1 h2 h3]
        constructor
        · rintro ⟨r, hr, _, hv⟩
          simp at hr
          subst hr
          exact ⟨exec, sig, pubkey, result, rfl, rfl, h3, hv⟩
        · rintro ⟨exec2, sig2, pubkey2, result2, he, hsg, hx, hv⟩
          cases he
          cases hsg
          rw [h3] at hx
          cases hx
          exact ⟨_, List.mem_singleton.mpr rfl, rfl, hv⟩

/-- C3: the version list returned by `handleRawRequests` holds no string twice, and holds
a string exactly when it is the version reported by the sandbox for some task whose
resolution, signing and sandbox call all succeeded; a task that failed adds nothing. -/
theorem handleRawRequests_execVersions (g : Nat → Gateways) (s : Sched) (c : Context)
    (id : RequestID) (reqs : List rawRequest) (key : KeyInfo)
    (hs : s.deliver.Perm (List.range reqs.length))
    (hrange : ∀ keys, (s.rangeOrder keys).Perm keys) :
    ∃ reports execVersions,
      (handleRawRequests g s c id reqs key).result = some (reports, execVersions) ∧
      execVersions.Nodup ∧
      ∀ v, v ∈ execVersions ↔
        ∃ k req exec sig pubkey result, reqs[k]? = some req ∧
          (g k).GetExecutable req.dataSourceHash = Except.ok exec ∧
          (g k).Sign key.name ((g k).GetSignBytes
            (vmsg c req id)) =
              Except.ok (sig, pubkey) ∧
          (g k).Exec exec req.calldata
            (execEnv (vmsg c req id) sig pubkey) = Except.ok result ∧
          result.Version = v := by
  obtain ⟨hres, hperm⟩ := handleRawRequests_result g s c id reqs key hs
  refine ⟨_, _, hres, ?_, ?_⟩
  · exact (hrange _).nodup_iff.mpr (nodup_foldl_recordVersion _ [] List.nodup_nil)
  · intro v
    rw [(hrange _).mem_iff, mem_foldl_recordVersion]
    simp only [List.not_mem_nil, false_or]
    constructor
    · rintro ⟨r, hr, herr, hv⟩
      have hr2 : r ∈ taskResults g c key id reqs := hperm.mem_iff.mp hr
      obtain ⟨k, req, hk, hmem⟩ := (mem_spawnAll_sent g c key id reqs r 0).mp hr2
      rw [Nat.zero_add] at hmem
      obtain ⟨exec, sig, pubkey, result, h1, h2, h3, h4⟩ :=
        (version_of_task (g k) c req key id v).mp ⟨r, hmem, herr, hv⟩
      exact ⟨k, req, exec, sig, pubkey, result, hk, h1, h2, h3, h4⟩
    · rintro ⟨k, req, exec, sig, pubkey, result, hk, h1, h2, h3, h4⟩
      obtain ⟨r, hmem, herr, hv⟩ :=
        (version_of_task (g k) c req key id v).mpr ⟨exec, sig, pubkey, result, h1, h2, h3, h4⟩
      refine ⟨r, hperm.mem_iff.mpr ?_, herr, hv⟩
      exact (mem_spawnAll_sent g c key id reqs r 0).mpr ⟨k, req, hk, by rwa [Nat.zero_add]⟩

/-- The version-set property on the sample request. -/
theorem handleRawRequests_execVersions_witness :
    ∃ reports execVersions,
      (handleRawRequests sampleG schedLastFirst sampleContext 42 sampleTasks
        sampleKey).result = some (reports, execVersions) ∧
      execVersions.Nodup ∧
      ∀ v, v ∈ execVersions ↔
        ∃ (k : Nat) (req : rawRequest) (exec sig pubkey : Bytes) (result : ExecResult),
          sampleTasks[k]? = some req ∧
          (sampleGateways 0).GetExecutable req.dataSourceHash = Except.ok exec ∧
          (sampleGateways 0).Sign sampleKey.name ((sampleGateways 0).GetSignBytes
            (vmsg sampleContext req 42)) = Except.ok (sig, pubkey) ∧
          (sampleGateways 0).Exec exec req.calldata
            (execEnv (vmsg sampleContext req 42) sig pubkey) = Except.ok result ∧
          result.Version = v :=
  handleRawRequests_execVersions sampleG schedLastFirst sampleContext 42
    sampleTasks sampleKey (by decide) (fun keys => List.Perm.refl keys)

/-- On the sample request the two successful tasks report the same version, which is
returned once; the task that failed to load adds none. -/
theorem sample_execVersions :
    (handleRawRequests sampleG schedLastFirst sampleContext 42 sampleTasks
      sampleKey).result.map Prod.snd = some ["lambda:1.0"] := by
  decide

/-! ## Properties of the dispatcher -/

/-- The validator loop finds this validator exactly when it is listed. -/
theorem hasMe_iff (me : String) (validators : List String) :
    hasMe me validators = true ↔ me ∈ validators := by
  induction validators with
  | nil => simp [hasMe]
  | cons v rest ih =>
    unfold hasMe
    by_cases hv : v = me
    · simp [hv]
    · simp only [hv, if_false, ih, List.mem_cons]
      constructor
      · exact Or.inr
      · rintro (h | h)
        · exact absurd h.symm hv
        · exact h

/-- A log that fails one of the three filters is dropped: the handler returns after one
log line, with the context untouched. -/
theorem handleRequestLog_filtered (h : Helpers) (g : Nat → Gateways) (s : Sched)
    (c : Context) (log : ABCIMessageLog)
    (hno : ¬ ∃ idStr id,
      h.GetEventValue log h.EventTypeRequest h.AttributeKeyID = Except.ok idStr ∧
      strconvAtoi idStr = Except.ok id ∧ c.pendingRequests (toUint64 id) = false ∧
      c.validator ∈ h.GetEventValues log h.EventTypeRequest h.AttributeKeyValidator) :
    (handleRequestLog h g s c log).outcome = Outcome.returned ∧
    (handleRequestLog h g s c log).effects.any Effect.isExecute = false ∧
    (handleRequestLog h g s c log).effects.any Effect.isEnqueue = false ∧
    (handleRequestLog h g s c log).ctx.pendingRequests = c.pendingRequests := by
  cases h1 : h.GetEventValue log h.EventTypeRequest h.AttributeKeyID with
  | error e => simp [handleRequestLog, h1, Effect.isExecute, Effect.isEnqueue]
  | ok idStr =>
    cases h2 : strconvAtoi idStr with
    | error e => simp [handleRequestLog, h1, h2, Effect.isExecute, Effect.isEnqueue]
    | ok id =>
      by_cases h3 : c.pendingRequests (toUint64 id) = true
      · simp [handleRequestLog, h1, h2, h3, Effect.isExecute, Effect.isEnqueue]
      · by_cases h4 : hasMe c.validator
            (h.GetEventValues log h.EventTypeRequest h.AttributeKeyValidator) = false
        · simp [handleRequestLog, h1, h2, h3, h4, Effect.isExecute, Effect.isEnqueue]
        · exfalso
          apply hno
          refine ⟨idStr, id, h1, h2, by simpa using h3, ?_⟩
          exact (hasMe_iff _ _).mp (by simpa using h4)

/-- C5: `handleRequestLog` hands tasks to `handleRawRequests` or sends on `pendingMsgs`
only if the log carries a request id that parses as an integer, the id is not in
`pendingRequests`, and this validator is among the requested validators; in every other
case it returns with no task run and nothing enqueued. -/
theorem handleRequestLog_dispatch_only_if (h : Helpers) (g : Nat → Gateways) (s : Sched)
    (c : Context) (log : ABCIMessageLog) :
    (((handleRequestLog h g s c log).effects.any Effect.isExecute = true ∨
      (handleRequestLog h g s c log).effects.any Effect.isEnqueue = true) →
      ∃ idStr id,
        h.GetEventValue log h.EventTypeRequest h.AttributeKeyID = Except.ok idStr ∧
        strconvAtoi idStr = Except.ok id ∧ c.pendingRequests (toUint64 id) = false ∧
        c.validator ∈ h.GetEventValues log h.EventTypeRequest h.AttributeKeyValidator) ∧
    ((¬ ∃ idStr id,
        h.GetEventValue log h.EventTypeRequest h.AttributeKeyID = Except.ok idStr ∧
        strconvAtoi idStr = Except.ok id ∧ c.pendingRequests (toUint64 id) = false ∧
        c.validator ∈ h.GetEventValues log h.EventTypeRequest h.AttributeKeyValidator) →
      (handleRequestLog h g s c log).outcome = Outcome.returned ∧
      (handleRequestLog h g s c log).effects.any Effect.isExecute = false ∧
      (handleRequestLog h g s c log).effects.any Effect.isEnqueue = false) := by
  constructor
  · intro hdo
    by_contra hno
    obtain ⟨_, h1, h2, _⟩ := handleRequestLog_filtered h g s c log hno
    rw [h1, h2] at hdo
    simp at hdo
  · intro hno
    obtain ⟨h0, h1, h2, _⟩ := handleRequestLog_filtered h g s c log hno
    exact ⟨h0, h1, h2⟩

/-- The dispatch filter on two sample logs: one that does not name this validator is
dropped, and the well-formed one, which is enqueued, meets the three conditions. -/
theorem handleRequestLog_dispatch_only_if_witness :
    ((handleRequestLog sampleH sampleG
        schedSingle sampleContext logOtherValidator).outcome = Outcome.returned ∧
      (handleRequestLog sampleH sampleG
        schedSingle sampleContext logOtherValidator).effects.any Effect.isExecute = false ∧
      (handleRequestLog sampleH sampleG
        schedSingle sampleContext logOtherValidator).effects.any Effect.isEnqueue = false) ∧
    ∃ idStr id,
      sampleH.GetEventValue logFull "request" "id" =
        Except.ok idStr ∧
      strconvAtoi idStr = Except.ok id ∧ sampleContext.pendingRequests (toUint64 id) = false ∧
      sampleContext.validator ∈
        sampleH.GetEventValues logFull "request" "validator" :=
  ⟨(handleRequestLog_dispatch_only_if sampleH
      sampleG schedSingle sampleContext logOtherValidator).2
      (by
        rintro ⟨idStr, id, _, _, _, hme⟩
        revert hme
        decide),
   (handleRequestLog_dispatch_only_if sampleH
      sampleG schedSingle sampleContext logFull).1
      (Or.inr (by decide))⟩

/-- Logging an error sends nothing on `pendingMsgs`. -/
theorem logIfError_not_enqueue (t : String) (err : Option GoError) :
    (logIfError t err).any Effect.isEnqueue = false := by
  cases err <;> simp [logIfError, Effect.isEnqueue]

/-- Logging an error hands no task over. -/
theorem logIfError_inFlight (t : String) (err : Option GoError) :
    (logIfError t err).filterMap Effect.inFlightAtHandoff = [] := by
  cases err <;> simp [logIfError, Effect.inFlightAtHandoff]

/-- Logging an error runs no task. -/
theorem logIfError_tasksRun (t : String) (err : Option GoError) :
    ((logIfError t err).map Effect.tasksRun).flatten = [] := by
  cases err <;> simp [logIfError, Effect.tasksRun]

/-- The runs of `handleRequestLog` on a log that passes the three filters. With `c1` the
context after the key rotation, `reqs` the parsed tasks, `t1` the trace up to the key
lookup and `x key` the hand-off to `handleRawRequests`, the run is one of: a panic on the
key lookup; a fan-in that never returns; a panic on a missing or malformed attribute,
after the hand-off; a normal return after the envelope is enqueued. -/
theorem handleRequestLog_accepted (h : Helpers) (g : Nat → Gateways) (s : Sched) (c : Context)
    (log : ABCIMessageLog) (idStr : String) (id : Int)
    (c1 : Context) (reqs : List rawRequest) (t1 : List Effect) (x : KeyInfo → Effect)
    (hc1 : c1 = (nextKeyIndex c).2)
    (hreqs : reqs = (h.GetRawRequests log).1)
    (ht1 : t1 = Effect.logInfo ":delivery_truck: Processing incoming request event" ::
      logIfError ":skull: Failed to parse raw requests with error: %s" (h.GetRawRequests log).2)
    (hx : x = fun key =>
      Effect.execute c1 (toUint64 id) reqs key (spawnAll g c1 key (toUint64 id) 0 reqs))
    (h1 : h.GetEventValue log h.EventTypeRequest h.AttributeKeyID = Except.ok idStr)
    (h2 : strconvAtoi idStr = Except.ok id)
    (h3f : c.pendingRequests (toUint64 id) = false)
    (hme : c.validator ∈ h.GetEventValues log h.EventTypeRequest h.AttributeKeyValidator) :
    (c1.keys[(nextKeyIndex c).1]? = none ∧
      handleRequestLog h g s c log = ⟨Outcome.panicked "index out of range", c1, t1⟩) ∨
    (∃ key, c1.keys[(nextKeyIndex c).1]? = some key ∧
      (((handleRawRequests g s c1 (toUint64 id) reqs key).result = none ∧
        handleRequestLog h g s c log = ⟨Outcome.blocked, c1, t1 ++ [x key]⟩) ∨
       (∃ msg, handleRequestLog h g s c log = ⟨Outcome.panicked msg, c1, t1 ++ [x key]⟩) ∨
       (∃ reports execVersions a na m nm cd,
          (handleRawRequests g s c1 (toUint64 id) reqs key).result =
            some (reports, execVersions) ∧
          h.GetEventValues log h.EventTypeRequest h.AttributeKeyAskCount = [a] ∧
          strconvParseInt a = Except.ok na ∧
          h.GetEventValues log h.EventTypeRequest h.AttributeKeyMinCount = [m] ∧
          strconvParseInt m = Except.ok nm ∧
          h.GetEventValues log h.EventTypeRequest h.AttributeKeyCalldata = [cd] ∧
          handleRequestLog h g s c log = ⟨Outcome.returned, c1, t1 ++ [x key] ++
            logIfError ":skull: Fail to parse call data: %s" (hexDecodeString cd).2 ++
            [Effect.enqueue
              { msg := NewMsgReportData (toUint64 id) reports c.validator,
                execVersion := execVersions,
                keyIndex := (nextKeyIndex c).1,
                feeEstimationData :=
                  { askCount := na, minCount := nm, callData := (hexDecodeString cd).1,
                    rawRequests := reqs,
                    clientID := (h.GetEventValues log h.EventTypeRequest
                      h.AttributeKeyClientID).headD "" } }]⟩))) := by
  subst hc1 hreqs ht1 hx
  have h4 : hasMe c.validator
      (h.GetEventValues log h.EventTypeRequest h.AttributeKeyValidator) = true :=
    (hasMe_iff _ _).mpr hme
  cases hk : (nextKeyIndex c).2.keys[(nextKeyIndex c).1]? with
  | none =>
    left
    refine ⟨rfl, ?_⟩
    simp only [handleRequestLog, h1, h2, h3f, h4, hk]
    simp
  | some key =>
    right
    refine ⟨key, rfl, ?_⟩
    cases hres : (handleRawRequests g s (nextKeyIndex c).2 (toUint64 id)
        (h.GetRawRequests log).1 key).result with
    | none =>
      left
      refine ⟨rfl, ?_⟩
      simp only [handleRequestLog, h1, h2, h3f, h4, hk, hres]
      simp [handleRawRequests]
    | some rv =>
      obtain ⟨reports, execVersions⟩ := rv
      right
      rcases hask : h.GetEventValues log h.EventTypeRequest h.AttributeKeyAskCount with
        _ | ⟨a, _ | ⟨a2, arest⟩⟩
      · left
        refine ⟨"Fail to get ask count", ?_⟩
        simp only [handleRequestLog, h1, h2, h3f, h4, hk, hres, hask]
        simp [handleRawRequests]
      · cases hna : strconvParseInt a with
        | error e =>
          left
          refine ⟨e, ?_⟩
          simp only [handleRequestLog, h1, h2, h3f, h4, hk, hres, hask, MustAtoi, hna]
          simp [handleRawRequests]
        | ok na =>
          rcases hmin : h.GetEventValues log h.EventTypeRequest h.AttributeKeyMinCount with
            _ | ⟨m, _ | ⟨m2, mrest⟩⟩
          · left
            refine ⟨"Fail to get min count", ?_⟩
            simp only [handleRequestLog, h1, h2, h3f, h4, hk, hres, hask, MustAtoi, hna, hmin]
            simp [handleRawRequests]
          · cases hnm : strconvParseInt m with
            | error e =>
              left
              refine ⟨e, ?_⟩
              simp only [handleRequestLog, h1, h2, h3f, h4, hk, hres, hask, MustAtoi, hna,
                hmin, hnm]
              simp [handleRawRequests]
            | ok nm =>
              rcases hcd : h.GetEventValues log h.EventTypeRequest h.AttributeKeyCalldata with
                _ | ⟨cd, _ | ⟨cd2, cdrest⟩⟩
              · left
                refine ⟨"Fail to get call data", ?_⟩
                simp only [handleRequestLog, h1, h2, h3f, h4, hk, hres, hask, MustAtoi, hna,
                  hmin, hnm, hcd]
                simp [handleRawRequests]
              · right
                refine ⟨reports, execVersions, a, na, m, nm, cd, rfl, rfl, hna, rfl, hnm,
                  rfl, ?_⟩
                simp only [handleRequestLog, h1, h2, h3f, h4, hk, hres, hask, MustAtoi, hna,
                  hmin, hnm, hcd]
                simp [handleRawRequests]
              · left
                refine ⟨"Fail to get call data", ?_⟩
                simp only [handleRequestLog, h1, h2, h3f, h4, hk, hres, hask, MustAtoi, hna,
                  hmin, hnm, hcd]
                simp [handleRawRequests]
          · left
            refine ⟨"Fail to get min count", ?_⟩
            simp only [handleRequestLog, h1, h2, h3f, h4, hk, hres, hask, MustAtoi, hna, hmin]
            simp [handleRawRequests]
      · left
        refine ⟨"Fail to get ask count", ?_⟩
        simp only [handleRequestLog, h1, h2, h3f, h4, hk, hres, hask]
        simp [handleRawRequests]

/-- The live path: the id is absent from the in-flight set at the hand-off, and the set is
never written. -/
theorem handleRequestLog_inflight (h : Helpers) (g : Nat → Gateways) (s : Sched) (c : Context)
    (log : ABCIMessageLog) :
    (∀ b ∈ (handleRequestLog h g s c log).effects.filterMap Effect.inFlightAtHandoff,
      b = false) ∧
    (handleRequestLog h g s c log).ctx.pendingRequests = c.pendingRequests := by
  by_cases hacc : ∃ idStr id,
      h.GetEventValue log h.EventTypeRequest h.AttributeKeyID = Except.ok idStr ∧
      strconvAtoi idStr = Except.ok id ∧ c.pendingRequests (toUint64 id) = false ∧
      c.validator ∈ h.GetEventValues log h.EventTypeRequest h.AttributeKeyValidator
  · obtain ⟨idStr, id, h1, h2, h3f, hme⟩ := hacc
    rcases handleRequestLog_accepted h g s c log idStr id _ _ _ _ rfl rfl rfl rfl h1 h2 h3f hme
      with ⟨_, hr⟩ | ⟨key, _, ⟨_, hr⟩ | ⟨msg, hr⟩ |
        ⟨_, _, _, _, _, _, _, _, _, _, _, _, _, hr⟩⟩ <;>
    · rw [hr]
      simp [List.filterMap_append, logIfError_inFlight, Effect.inFlightAtHandoff, nextKeyIndex,
        h3f]
  · obtain ⟨_, hex, _, hctx⟩ := handleRequestLog_filtered h g s c log hacc
    refine ⟨?_, hctx⟩
    intro b hb
    obtain ⟨e, he, heb⟩ := List.mem_filterMap.mp hb
    have hne : e.isExecute = false := by
      have := List.any_eq_false.mp hex e he
      simpa using this
    cases e <;> simp [Effect.inFlightAtHandoff, Effect.isExecute] at heb hne

/-- The polled path: the in-flight set at the hand-off is the one the handler was called
with, and the set is never written. -/
theorem handlePendingRequest_inflight (h : Helpers) (g : Nat → Gateways) (s : Sched)
    (c : Context) (id : RequestID) :
    (∀ b ∈ (handlePendingRequest h g s c id).effects.filterMap Effect.inFlightAtHandoff,
      b = c.pendingRequests id) ∧
    (handlePendingRequest h g s c id).ctx.pendingRequests = c.pendingRequests := by
  cases hreq : h.GetRequest id with
  | error e => simp [handlePendingRequest, hreq, Effect.inFlightAtHandoff]
  | ok req =>
    cases hk : (nextKeyIndex c).2.keys[(nextKeyIndex c).1]? with
    | none =>
      simp only [handlePendingRequest, hreq, hk]
      simp [Effect.inFlightAtHandoff, nextKeyIndex]
    | some key =>
      cases hprep : prepareRawRequests h req.RawRequests [] with
      | error e =>
        simp only [handlePendingRequest, hreq, hk, hprep]
        simp [Effect.inFlightAtHandoff, nextKeyIndex]
      | ok rawRequests =>
        cases hres : (handleRawRequests g s (nextKeyIndex c).2 id rawRequests key).result with
        | none =>
          simp only [handlePendingRequest, hreq, hk, hprep, hres]
          simp [Effect.inFlightAtHandoff, nextKeyIndex]
        | some rv =>
          simp only [handlePendingRequest, hreq, hk, hprep, hres]
          simp [Effect.inFlightAtHandoff, nextKeyIndex]

/-- C6 as stated fails: on the live path the request id is absent from the in-flight set
when the tasks are handed to `handleRawRequests`, and it is still absent when the handler
returns. -/
theorem live_path_never_inserts :
    sampleContext.pendingRequests 42 = false ∧
    (handleRequestLog sampleH sampleG schedSingle sampleContext logFull).effects.filterMap
      Effect.inFlightAtHandoff = [false] ∧
    (handleRequestLog sampleH sampleG schedSingle sampleContext logFull).outcome =
      Outcome.returned ∧
    (handleRequestLog sampleH sampleG schedSingle sampleContext logFull).ctx.pendingRequests
      42 = false := by
  decide

/-- C6, amended: neither dispatch path writes the in-flight set. On the live path the
request id is not a member when the tasks are handed to `handleRawRequests`; on the polled
path it is a member at that moment exactly when it was one when the handler was called;
both handlers leave the set as they found it. -/
theorem inflight_set_at_handoff (h : Helpers) (g : Nat → Gateways) (s : Sched) (c : Context)
    (log : ABCIMessageLog) (id : RequestID) :
    (∀ b ∈ (handleRequestLog h g s c log).effects.filterMap Effect.inFlightAtHandoff,
      b = false) ∧
    (handleRequestLog h g s c log).ctx.pendingRequests = c.pendingRequests ∧
    (∀ b ∈ (handlePendingRequest h g s c id).effects.filterMap Effect.inFlightAtHandoff,
      b = c.pendingRequests id) ∧
    (handlePendingRequest h g s c id).ctx.pendingRequests = c.pendingRequests :=
  ⟨(handleRequestLog_inflight h g s c log).1, (handleRequestLog_inflight h g s c log).2,
   (handlePendingRequest_inflight h g s c id).1, (handlePendingRequest_inflight h g s c id).2⟩

/-- The in-flight property on the sample runs: one hand-off on each path, with the id
absent on the live path and present on the polled path once the caller has inserted it. -/
theorem inflight_set_at_handoff_witness :
    ((handleRequestLog sampleH sampleG schedSingle sampleContext logFull).effects.filterMap
        Effect.inFlightAtHandoff = [false] ∧
      ∀ b ∈ (handleRequestLog sampleH sampleG schedSingle sampleContext
          logFull).effects.filterMap Effect.inFlightAtHandoff, b = false) ∧
    ((handlePendingRequest sampleH sampleG schedSingle sampleContextPolled 42).effects.filterMap
        Effect.inFlightAtHandoff = [true] ∧
      ∀ b ∈ (handlePendingRequest sampleH sampleG schedSingle sampleContextPolled
          42).effects.filterMap Effect.inFlightAtHandoff,
        b = sampleContextPolled.pendingRequests 42) :=
  ⟨⟨by decide,
    (inflight_set_at_handoff sampleH sampleG schedSingle sampleContext logFull 42).1⟩,
   ⟨by decide,
    (inflight_set_at_handoff sampleH sampleG schedSingle sampleContextPolled logFull 42).2.2.1⟩⟩

/-- C4 as stated fails: on a log that passes the filters but lacks the ask-count
attribute, the handler runs the task and then panics instead of returning. -/
theorem missing_ask_count_panics_after_tasks :
    sampleH.GetEventValue logNoAskCount "request" "id" = Except.ok "42" ∧
    strconvAtoi "42" = Except.ok 42 ∧
    sampleContext.pendingRequests (toUint64 42) = false ∧
    sampleContext.validator ∈ sampleH.GetEventValues logNoAskCount "request" "validator" ∧
    sampleH.GetEventValues logNoAskCount "request" "ask_count" = [] ∧
    (handleRequestLog sampleH sampleG schedSingle sampleContext logNoAskCount).outcome =
      Outcome.panicked "Fail to get ask count" ∧
    (handleRequestLog sampleH sampleG schedSingle sampleContext logNoAskCount).effects.any
      Effect.isExecute = true ∧
    ((handleRequestLog sampleH sampleG schedSingle sampleContext logNoAskCount).effects.map
      Effect.tasksRun).flatten =
      [handleRawRequest (sampleGateways 0) (nextKeyIndex sampleContext).2 (sampleTask 1)
        sampleKey 42] := by
  decide

/-- C4, amended: on a log that passes the filters, when the ask-count, min-count or
calldata attribute is absent or not unique, or a count is not a decimal integer, the
handler sends nothing on `pendingMsgs` and leaves `pendingRequests` as it was, but it does
not return normally: with a valid key index and every result delivered it panics, after
all parsed tasks have been run. -/
theorem handleRequestLog_malformed_attribute (h : Helpers) (g : Nat → Gateways) (s : Sched)
    (c : Context) (log : ABCIMessageLog) (idStr : String) (id : Int)
    (h1 : h.GetEventValue log h.EventTypeRequest h.AttributeKeyID = Except.ok idStr)
    (h2 : strconvAtoi idStr = Except.ok id)
    (h3f : c.pendingRequests (toUint64 id) = false)
    (hme : c.validator ∈ h.GetEventValues log h.EventTypeRequest h.AttributeKeyValidator)
    (hbad :
      (h.GetEventValues log h.EventTypeRequest h.AttributeKeyAskCount).length ≠ 1 ∨
      (∃ v ∈ h.GetEventValues log h.EventTypeRequest h.AttributeKeyAskCount,
        ∃ e, strconvParseInt v = Except.error e) ∨
      (h.GetEventValues log h.EventTypeRequest h.AttributeKeyMinCount).length ≠ 1 ∨
      (∃ v ∈ h.GetEventValues log h.EventTypeRequest h.AttributeKeyMinCount,
        ∃ e, strconvParseInt v = Except.error e) ∨
      (h.GetEventValues log h.EventTypeRequest h.AttributeKeyCalldata).length ≠ 1) :
    (handleRequestLog h g s c log).outcome ≠ Outcome.returned ∧
    (handleRequestLog h g s c log).effects.any Effect.isEnqueue = false ∧
    (handleRequestLog h g s c log).ctx.pendingRequests = c.pendingRequests ∧
    (∀ key, (nextKeyIndex c).2.keys[(nextKeyIndex c).1]? = some key →
      s.deliver.Perm (List.range (h.GetRawRequests log).1.length) →
      (∃ msg, (handleRequestLog h g s c log).outcome = Outcome.panicked msg) ∧
      ((handleRequestLog h g s c log).effects.map Effect.tasksRun).flatten =
        spawnAll g (nextKeyIndex c).2 key (toUint64 id) 0 (h.GetRawRequests log).1) := by
  rcases handleRequestLog_accepted h g s c log idStr id _ _ _ _ rfl rfl rfl rfl h1 h2 h3f hme
    with ⟨hk, hr⟩ | ⟨key, hk, ⟨hres, hr⟩ | ⟨msg, hr⟩ |
      ⟨_, _, a, na, m, nm, cd, _, hask, hna, hmin, hnm, hcd, _⟩⟩
  · rw [hr]
    refine ⟨by simp, by simp [logIfError_not_enqueue, Effect.isEnqueue], by simp [nextKeyIndex],
      ?_⟩
    intro key2 hk2
    rw [hk] at hk2
    cases hk2
  · rw [hr]
    refine ⟨by simp, by simp [logIfError_not_enqueue, Effect.isEnqueue], by simp [nextKeyIndex],
      ?_⟩
    intro key2 hk2 hs
    rw [hk] at hk2
    cases hk2
    rw [(handleRawRequests_result g s _ _ _ key hs).1] at hres
    cases hres
  · rw [hr]
    refine ⟨by simp, by simp [logIfError_not_enqueue, Effect.isEnqueue], by simp [nextKeyIndex],
      ?_⟩
    intro key2 hk2 _
    rw [hk] at hk2
    cases hk2
    exact ⟨⟨msg, rfl⟩, by simp [logIfError_tasksRun, Effect.tasksRun]⟩
  · exfalso
    rw [hask, hmin, hcd] at hbad
    rcases hbad with hb | ⟨v, hv, e, he⟩ | hb | ⟨v, hv, e, he⟩ | hb
    · simp at hb
    · simp at hv
      subst hv
      rw [hna] at he
      cases he
    · simp at hb
    · simp at hv
      subst hv
      rw [hnm] at he
      cases he
    · simp at hb

/-- The malformed-attribute property on the sample log without ask-count. -/
theorem handleRequestLog_malformed_attribute_witness :
    (handleRequestLog sampleH sampleG schedSingle sampleContext logNoAskCount).outcome ≠
      Outcome.returned ∧
    (handleRequestLog sampleH sampleG schedSingle sampleContext logNoAskCount).effects.any
      Effect.isEnqueue = false ∧
    (handleRequestLog sampleH sampleG schedSingle sampleContext
      logNoAskCount).ctx.pendingRequests = sampleContext.pendingRequests ∧
    (∀ key, (nextKeyIndex sampleContext).2.keys[(nextKeyIndex sampleContext).1]? = some key →
      schedSingle.deliver.Perm (List.range (sampleH.GetRawRequests logNoAskCount).1.length) →
      (∃ msg, (handleRequestLog sampleH sampleG schedSingle sampleContext
        logNoAskCount).outcome = Outcome.panicked msg) ∧
      ((handleRequestLog sampleH sampleG schedSingle sampleContext logNoAskCount).effects.map
        Effect.tasksRun).flatten =
        spawnAll sampleG (nextKeyIndex sampleContext).2 key (toUint64 42) 0
          (sampleH.GetRawRequests logNoAskCount).1) :=
  handleRequestLog_malformed_attribute sampleH sampleG schedSingle sampleContext logNoAskCount
    "42" 42 (by decide) (by decide) (by decide) (by decide) (Or.inl (by decide))

/-- When `GetRawRequests` fails, the error is logged and the handler goes on with the
returned task list: the envelope is still enqueued. -/
theorem raw_request_error_still_enqueues :
    (handleRequestLog (sampleHelpers ([], some "inconsistent raw request count")) sampleG
      { deliver := [], rangeOrder := fun keys => keys } sampleContext logFull).outcome =
        Outcome.returned ∧
    (handleRequestLog (sampleHelpers ([], some "inconsistent raw request count")) sampleG
      { deliver := [], rangeOrder := fun keys => keys } sampleContext logFull).effects.any
        Effect.isEnqueue = true := by
  decide

/-- When the calldata attribute is not valid hexadecimal, the error is logged and the
envelope is still enqueued, with the bytes decoded before the error. -/
theorem bad_calldata_still_enqueues :
    hexDecodeString "68zz" = ([104], some "encoding/hex: invalid byte") ∧
    (handleRequestLog sampleH sampleG schedSingle sampleContext logBadCalldata).outcome =
      Outcome.returned ∧
    (handleRequestLog sampleH sampleG schedSingle sampleContext logBadCalldata).effects.any
      Effect.isEnqueue = true := by
  decide

end Yoda
